import Mathlib

/-!
# Sparkplug TCK edge-node driver

A shallow embedding of `examples/tck_edge_node.cpp` / `examples/tck_edge_node.hpp`:
the command tokenizer (`trim`, `split`), the reporter (`publish_tck`, `log`,
`publish_result`), the session adapter (`create_edge_node`), the scenario handlers,
the test-control dispatcher (`handle_test_control`), the configuration handlers
(`handle_config` with `std::stoi`, `handle_result_config`, `handle_console_prompt`),
the transport callbacks and the lifecycle (`start`, `stop`).

Conventions of the embedding.

* `std::string` is `String`; character scans go through its list of characters.  The
  delimiter and the trimmed characters are ASCII, which never occur inside a multi-byte
  UTF-8 sequence, so scanning characters or bytes cuts a text at the same places.
* The object `TCKEdgeNode` is the record of its data members.  Every member function
  becomes a function on `World`, the object together with the chronological list of
  calls it made to the outside (console lines, `MQTTAsync_sendMessage`, the calls on the
  `EdgeNode` session).  Handlers run one at a time, as the transport delivers them.
* What the outside answers (the return code of `MQTTAsync_sendMessage`, whether the
  `EdgeNode` constructor, `connect()` and `publish_birth()` succeed, return an error or
  throw a `std::exception`) is the parameter `Env`.
-/

namespace Sparkplug.Tck

/-! ## Command parser -/

/-- Membership in the character set `" \t\n\r"` used by `trim`. -/
def isTrimChar (c : Char) : Bool :=
  c == ' ' || c == '\t' || c == '\n' || c == '\r'

/-- The call `str.find_first_not_of(" \t\n\r")`; `none` stands for `std::string::npos`. -/
def find_first_not_of (str : List Char) : Option Nat :=
  str.findIdx? (fun c => !isTrimChar c)

/-- The call `str.find_last_not_of(" \t\n\r")`; `none` stands for `std::string::npos`. -/
def find_last_not_of (str : List Char) : Option Nat :=
  (str.reverse.findIdx? (fun c => !isTrimChar c)).map (fun j => str.length - 1 - j)

/-- The function `trim`: the substring from the first to the last character outside `" \t\n\r"`,
or the empty string when there is no such character. -/
def trim (str : String) : String :=
  match find_first_not_of str.data with
  | none => ""
  | some first =>
    let last := (find_last_not_of str.data).getD 0
    String.mk ((str.data.drop first).take (last - first + 1))

/-- The call `std::getline(ss, token, delimiter)` on the unread characters `ss` of the stream.
When nothing is left no character can be extracted, the stream fails and the call
yields `none`.  Otherwise the token is everything up to the first delimiter (or to the
end), and the delimiter, when met, is extracted and dropped. -/
def getline (ss : List Char) (delimiter : Char) : Option (List Char × List Char) :=
  match ss with
  | [] => none
  | _ :: _ => some (ss.takeWhile (· != delimiter), (ss.dropWhile (· != delimiter)).drop 1)

/-- The loop `while (std::getline(ss, token, delimiter)) tokens.push_back(trim(token))`,
bounded by `fuel` iterations. -/
def splitLoop (delimiter : Char) : Nat → List Char → List String → List String
  | 0, _, tokens => tokens
  | fuel + 1, ss, tokens =>
    match getline ss delimiter with
    | none => tokens
    | some (token, rest) =>
      splitLoop delimiter fuel rest (tokens ++ [trim (String.mk token)])

/-- The function `split`: every successful `getline` consumes at least one character, so
`str.length + 1` iterations always reach the failing `getline` that ends the loop
(see `splitLoop_fuel`). -/
def split (str : String) (delimiter : Char) : List String :=
  splitLoop delimiter (str.length + 1) str.data []

/-! ## Data model -/

/-- The type `enum class EdgeTestState`. -/
inductive EdgeTestState where
  | IDLE
  | RUNNING
  | COMPLETED
  | FAILED
  deriving DecidableEq, Repr

/-- The type `struct TCKEdgeNodeConfig` with its default member initialisers. -/
structure TCKEdgeNodeConfig where
  broker_url : String := "tcp://localhost:1883"
  username : String := ""
  password : String := ""
  client_id_prefix : String := "tck_edge_node"
  group_id : String := "tck_group"
  edge_node_id : String := "tck_edge"
  namespace_prefix : String := "spBv1.0"
  utc_window_ms : Int := 5000
  deriving DecidableEq, Repr

/-- The members of `EdgeNode::Config` that `create_edge_node` fills in.  The credentials
are assigned only when the control configuration has a user name. -/
structure EdgeNodeConfig where
  broker_url : String
  client_id : String
  group_id : String
  edge_node_id : String
  username : Option String := none
  password : Option String := none
  deriving DecidableEq, Repr

/-- The session object owned through `std::unique_ptr<EdgeNode>`.  The class itself
(`sparkplug/edge_node.hpp`) is not among the sources: what the driver knows of a session
is the configuration it was constructed from. -/
structure EdgeNode where
  config : EdgeNodeConfig
  deriving DecidableEq, Repr

/-- The data members of `class TCKEdgeNode` (the transport handle and the mutex apart). -/
structure TCKEdgeNode where
  config_ : TCKEdgeNodeConfig := {}
  running_ : Bool := false
  connected_ : Bool := false
  test_state_ : EdgeTestState := EdgeTestState.IDLE
  current_test_name_ : String := ""
  current_test_params_ : List String := []
  edge_node_ : Option EdgeNode := none
  current_group_id_ : String := ""
  current_edge_node_id_ : String := ""
  device_ids_ : List String := []
  deriving DecidableEq, Repr

/-- A call made to the outside of the object. -/
inductive Event where
  /-- A line written to `std::cout`. -/
  | stdout (line : String)
  /-- A line written to `std::cerr`. -/
  | stderr (line : String)
  /-- A call `MQTTAsync_sendMessage(tck_client_, topic, msg, opts)`. -/
  | sendMessage (topic payload : String) (qos : Int)
  /-- A call `MQTTAsync_disconnect(tck_client_, opts)`. -/
  | transportDisconnect
  /-- A call `MQTTAsync_connect(tck_client_, conn_opts)`. -/
  | transportConnect
  /-- A call `MQTTAsync_subscribeMany(tck_client_, 4, topics, qos, opts)`. -/
  | subscribeMany (topics : List String) (qos : List Int)
  /-- A call `std::make_unique<EdgeNode>(config)`. -/
  | edgeNodeConstruct (config : EdgeNodeConfig)
  /-- A call `edge_node_->connect()`. -/
  | edgeNodeConnect (session : EdgeNode)
  /-- A call `edge_node_->publish_birth(birth)`. -/
  | edgeNodePublishBirth (session : EdgeNode)
  /-- A call `edge_node_->disconnect()`. -/
  | edgeNodeDisconnect (session : EdgeNode)
  /-- The destruction of the session by `edge_node_.reset()`. -/
  | edgeNodeReset (session : EdgeNode)
  deriving DecidableEq, Repr

/-- The object and the calls it has made so far, oldest first. -/
structure World where
  node : TCKEdgeNode := {}
  trace : List Event := []
  deriving DecidableEq, Repr

/-- Modelled from the spec: the class `EdgeNode` of `sparkplug/edge_node.hpp` is not among
the sources; its consumed interface is `connect() -> Result<void, Error>`,
`publishInitialState(metrics) -> Result<void, Error>` and `disconnect()`.  A call on it
returns a value, returns `stdx::unexpected(e)`, or throws a `std::exception` whose
`what()` is `what`. -/
inductive CallResult where
  | ok
  | error (e : String)
  | throws (what : String)
  deriving DecidableEq, Repr

deriving instance DecidableEq for Except

/-- The answers of the outside world during one handler invocation. -/
structure Env where
  /-- Return code of `MQTTAsync_sendMessage` for a topic, payload and qos. -/
  sendMessage : String → String → Int → Int
  /-- The `EdgeNode` constructor: `none` when it returns, `some what` when it throws. -/
  construct : EdgeNodeConfig → Option String
  /-- The result of `edge_node_->connect()`. -/
  connect : EdgeNode → CallResult
  /-- The result of `edge_node_->publish_birth(birth)`. -/
  publish_birth : EdgeNode → CallResult
  /-- The line that `std::getline(std::cin, response)` reads at a console prompt. -/
  stdin_line : String := ""
  /-- Return code of `MQTTAsync_connect`. -/
  transport_connect : Int := 0
  /-- Return code of `MQTTAsync_subscribeMany`. -/
  subscribe_many : Int := 0

/-- The constant `MQTTASYNC_SUCCESS` of `MQTTAsync.h`. -/
def MQTTASYNC_SUCCESS : Int := 0

/-- Record one outside call. -/
def World.emit (w : World) (e : Event) : World :=
  { w with trace := w.trace ++ [e] }

/-! ## Result/log reporter -/

/-- The member `TCKEdgeNode::publish_tck`: refuses without touching the transport when
`connected_` is false, otherwise hands the message to `MQTTAsync_sendMessage` and
reports its return code. -/
def publish_tck (env : Env) (w : World) (topic payload : String) (qos : Int) :
    World × Except String Unit :=
  if !w.node.connected_ then
    (w, Except.error "Not connected")
  else
    let w1 := w.emit (Event.sendMessage topic payload qos)
    let rc := env.sendMessage topic payload qos
    if rc ≠ MQTTASYNC_SUCCESS then
      (w1, Except.error ("Failed to publish: " ++ toString rc))
    else
      (w1, Except.ok ())

/-- The member `TCKEdgeNode::log`: the result of `publish_tck` is discarded. -/
def log (env : Env) (w : World) (level message : String) : World :=
  let log_msg := "[" ++ level ++ "] " ++ message
  let w1 := w.emit (Event.stdout log_msg)
  (publish_tck env w1 "SPARKPLUG_TCK/LOG" log_msg 0).1

/-- The member `TCKEdgeNode::publish_result`. -/
def publish_result (env : Env) (w : World) (result : String) : World :=
  let w1 := w.emit (Event.stdout ("[TCK] Result: " ++ result))
  let w2 := (publish_tck env w1 "SPARKPLUG_TCK/RESULT" result 1).1
  { w2 with node := { w2.node with test_state_ := EdgeTestState.COMPLETED } }

/-- The member `TCKEdgeNode::publish_console_reply`. -/
def publish_console_reply (env : Env) (w : World) (reply : String) : World :=
  let w1 := w.emit (Event.stdout ("[TCK] Console reply: " ++ reply))
  (publish_tck env w1 "SPARKPLUG_TCK/CONSOLE_REPLY" reply 1).1

/-! ## Session collaborator adapter -/

/-- The `EdgeNode::Config` built by `create_edge_node`: broker address of the control
configuration, client id `edge_node_id + "_client"`, the two identifiers, and the
credentials when the control configuration has a user name. -/
def edgeNodeConfig (config_ : TCKEdgeNodeConfig) (group_id edge_node_id : String) :
    EdgeNodeConfig :=
  let config : EdgeNodeConfig :=
    { broker_url := config_.broker_url
      client_id := edge_node_id ++ "_client"
      group_id := group_id
      edge_node_id := edge_node_id }
  if config_.username ≠ "" then
    { config with username := some config_.username, password := some config_.password }
  else
    config

/-- The member `TCKEdgeNode::create_edge_node`.  The three early `return stdx::unexpected`
and the `catch (const std::exception&)` clause leave `edge_node_` as it is at that
point: still null when the constructor threw, the freshly built session otherwise. -/
def create_edge_node (env : Env) (w : World) (group_id edge_node_id : String) :
    World × Except String Unit :=
  if w.node.edge_node_.isSome then
    (w, Except.error "Edge Node already exists")
  else
    let w1 := log env w "INFO"
      ("Creating Edge Node group_id=" ++ group_id ++ ", edge_node_id=" ++ edge_node_id)
    let w2 : World :=
      { w1 with node := { w1.node with current_group_id_ := group_id,
                                       current_edge_node_id_ := edge_node_id } }
    let config := edgeNodeConfig w2.node.config_ group_id edge_node_id
    let w3 := w2.emit (Event.edgeNodeConstruct config)
    match env.construct config with
    | some what => (w3, Except.error ("Exception: " ++ what))
    | none =>
      let session : EdgeNode := { config := config }
      let w4 : World := { w3 with node := { w3.node with edge_node_ := some session } }
      let w5 := log env w4 "INFO" "Connecting Edge Node to broker"
      let w6 := w5.emit (Event.edgeNodeConnect session)
      match env.connect session with
      | CallResult.throws what => (w6, Except.error ("Exception: " ++ what))
      | CallResult.error e => (w6, Except.error ("Failed to connect: " ++ e))
      | CallResult.ok =>
        let w7 := log env w6 "INFO" "Publishing NBIRTH"
        let w8 := w7.emit (Event.edgeNodePublishBirth session)
        match env.publish_birth session with
        | CallResult.throws what => (w8, Except.error ("Exception: " ++ what))
        | CallResult.error e => (w8, Except.error ("Failed to publish NBIRTH: " ++ e))
        | CallResult.ok =>
          (log env w8 "INFO" "Edge Node created and NBIRTH published", Except.ok ())

/-- The statements `edge_node_->disconnect(); edge_node_.reset();` under
`if (edge_node_)`, as they stand in `END_TEST` and in `stop`. -/
def release_edge_node (w : World) : World :=
  match w.node.edge_node_ with
  | some session =>
    { node := { w.node with edge_node_ := none }
      trace := w.trace ++ [Event.edgeNodeDisconnect session, Event.edgeNodeReset session] }
  | none => w

/-! ## Scenario handlers -/

/-- The member `TCKEdgeNode::run_session_establishment_test`.  Every `std::exception` of
the collaborator is already turned into an error result inside `create_edge_node`, so
the outer `catch` clause has nothing left to catch here. -/
def run_session_establishment_test (env : Env) (w : World) (params : List String) : World :=
  if params.length < 2 then
    let w1 := log env w "ERROR" "Missing parameters for SessionEstablishmentTest"
    publish_result env w1 "OVERALL: NOT EXECUTED"
  else
    let group_id := params.getD 0 ""
    let edge_node_id := params.getD 1 ""
    let device_ids : List String :=
      if params.length > 2 ∧ params.getD 2 "" ≠ "" then split (params.getD 2 "") ' ' else []
    match create_edge_node env w group_id edge_node_id with
    | (w1, Except.error e) =>
      let w2 := log env w1 "ERROR" e
      publish_result env w2 "OVERALL: FAIL"
    | (w1, Except.ok _) =>
      let w2 : World := { w1 with node := { w1.node with device_ids_ := device_ids } }
      log env w2 "INFO" "Edge Node session established successfully"

/-- The member `TCKEdgeNode::run_session_termination_test`. -/
def run_session_termination_test (env : Env) (w : World) (_params : List String) : World :=
  publish_result env (log env w "WARN" "SessionTerminationTest not yet implemented")
    "OVERALL: NOT EXECUTED"

/-- The member `TCKEdgeNode::run_send_data_test`. -/
def run_send_data_test (env : Env) (w : World) (_params : List String) : World :=
  publish_result env (log env w "WARN" "SendDataTest not yet implemented")
    "OVERALL: NOT EXECUTED"

/-- The member `TCKEdgeNode::run_send_complex_data_test`. -/
def run_send_complex_data_test (env : Env) (w : World) (_params : List String) : World :=
  publish_result env (log env w "WARN" "SendComplexDataTest not yet implemented")
    "OVERALL: NOT EXECUTED"

/-- The member `TCKEdgeNode::run_receive_command_test`. -/
def run_receive_command_test (env : Env) (w : World) (_params : List String) : World :=
  publish_result env (log env w "WARN" "ReceiveCommandTest not yet implemented")
    "OVERALL: NOT EXECUTED"

/-- The member `TCKEdgeNode::run_primary_host_test`. -/
def run_primary_host_test (env : Env) (w : World) (_params : List String) : World :=
  publish_result env (log env w "WARN" "PrimaryHostTest not yet implemented")
    "OVERALL: NOT EXECUTED"

/-- The member `TCKEdgeNode::run_multiple_broker_test`. -/
def run_multiple_broker_test (env : Env) (w : World) (_params : List String) : World :=
  publish_result env (log env w "WARN" "MultipleBrokerTest not yet implemented")
    "OVERALL: NOT EXECUTED"

/-! ## Test orchestrator -/

/-- The member `TCKEdgeNode::handle_test_control`. -/
def handle_test_control (env : Env) (w : World) (message : String) : World :=
  let parts := split message ' '
  if parts.isEmpty then
    w
  else
    let command := parts.getD 0 ""
    if command = "NEW_TEST" then
      if parts.length < 3 then
        log env w "ERROR" "Invalid NEW_TEST command format"
      else
        let profile := parts.getD 1 ""
        let test_type := parts.getD 2 ""
        if profile ≠ "edge" then
          log env w "WARN" ("Ignoring non-edge test: " ++ profile)
        else
          let params := parts.drop 3
          let w1 : World :=
            { w with node := { w.node with test_state_ := EdgeTestState.RUNNING,
                                           current_test_name_ := test_type,
                                           current_test_params_ := params } }
          let w2 := log env w1 "INFO" ("Starting test: " ++ test_type)
          if test_type = "SessionEstablishmentTest" then
            run_session_establishment_test env w2 params
          else if test_type = "SessionTerminationTest" then
            run_session_termination_test env w2 params
          else if test_type = "SendDataTest" then
            run_send_data_test env w2 params
          else if test_type = "SendComplexDataTest" then
            run_send_complex_data_test env w2 params
          else if test_type = "ReceiveCommandTest" then
            run_receive_command_test env w2 params
          else if test_type = "PrimaryHostTest" then
            run_primary_host_test env w2 params
          else if test_type = "MultipleBrokerTest" then
            run_multiple_broker_test env w2 params
          else
            let w3 := log env w2 "ERROR" ("Unknown test type: " ++ test_type)
            publish_result env w3 "OVERALL: NOT EXECUTED"
    else if command = "END_TEST" then
      let w1 := log env w "INFO" "Test end requested"
      let w2 :=
        if w1.node.test_state_ = EdgeTestState.RUNNING then
          if w1.node.current_test_name_ = "SessionEstablishmentTest" then
            publish_result env w1 "OVERALL: PASS"
          else w1
        else w1
      let w3 := release_edge_node w2
      { w3 with node := { w3.node with test_state_ := EdgeTestState.IDLE,
                                       current_test_name_ := "",
                                       current_test_params_ := [],
                                       current_group_id_ := "",
                                       current_edge_node_id_ := "",
                                       device_ids_ := [] } }
    else
      w

/-! ## Configuration and result-configuration messages -/

/-- The exceptions that `std::stoi` throws. -/
inductive StdException where
  | invalid_argument
  | out_of_range
  deriving DecidableEq, Repr

/-- The classification `isspace` of the C locale, used by `strtol` to skip leading
white space. -/
def isspace (c : Char) : Bool :=
  c == ' ' || c == '\t' || c == '\n' || c == '\x0b' || c == '\x0c' || c == '\r'

/-- The value of the leading run of decimal digits of a text, continuing from `acc`. -/
def parseDigits (acc : Nat) : List Char → Nat
  | [] => acc
  | c :: cs => if c.isDigit then parseDigits (acc * 10 + (c.toNat - 48)) cs else acc

/-- The constant `INT_MAX` for the 32-bit `int` of `utc_window_ms`. -/
def INT_MAX : Int := 2147483647

/-- The constant `INT_MIN` for the 32-bit `int` of `utc_window_ms`. -/
def INT_MIN : Int := -2147483648

/-- The call `std::stoi(str)` (base 10): leading white space is skipped, one sign is
accepted, then the longest run of digits is converted and whatever follows is ignored.
Without a digit it throws `std::invalid_argument`; with a value outside the range of
`int` it throws `std::out_of_range`. -/
def stoi (str : String) : Except StdException Int :=
  let s1 := str.data.dropWhile isspace
  let signed : Bool × List Char :=
    match s1 with
    | '-' :: r => (true, r)
    | '+' :: r => (false, r)
    | _ => (false, s1)
  match signed.2 with
  | [] => Except.error StdException.invalid_argument
  | c :: _ =>
    if c.isDigit then
      let v : Int := parseDigits 0 signed.2
      let value : Int := if signed.1 then -v else v
      if value < INT_MIN ∨ value > INT_MAX then Except.error StdException.out_of_range
      else Except.ok value
    else Except.error StdException.invalid_argument

/-- The member `TCKEdgeNode::handle_config`.  Nothing catches what `std::stoi` throws:
the exception leaves the handler before `utc_window_ms` is assigned. -/
def handle_config (env : Env) (w : World) (message : String) : Except StdException World :=
  let parts := split message ' '
  if parts.length ≥ 2 ∧ parts.getD 0 "" = "UTCwindow" then
    match stoi (parts.getD 1 "") with
    | Except.error e => Except.error e
    | Except.ok v =>
      let w1 : World :=
        { w with node := { w.node with config_ := { w.node.config_ with utc_window_ms := v } } }
      Except.ok (log env w1 "INFO" ("UTC window set to " ++ toString v ++ " ms"))
  else
    Except.ok w

/-- The member `TCKEdgeNode::handle_result_config`. -/
def handle_result_config (env : Env) (w : World) (message : String) : World :=
  let parts := split message ' '
  if parts.length ≥ 2 ∧ parts.getD 0 "" = "NEW_RESULT-LOG" then
    log env w "INFO" ("Result config: " ++ message)
  else
    w

/-- The member `TCKEdgeNode::handle_console_prompt`; the typed line comes from the
environment. -/
def handle_console_prompt (env : Env) (w : World) (message : String) : World :=
  let w1 := w.emit (Event.stdout "\n=== CONSOLE PROMPT ===")
  let w2 := w1.emit (Event.stdout message)
  let w3 := w2.emit (Event.stdout "======================")
  let w4 := w3.emit (Event.stdout "\nEnter response (PASS/FAIL): ")
  let response := trim env.stdin_line
  if response ≠ "" then
    let w5 := w4.emit (Event.stdout ("[TCK] Console reply: " ++ response))
    publish_console_reply env w5 response
  else
    w4

/-! ## Transport callbacks and lifecycle -/

/-- The object right after its constructor returned. -/
def World.create (config : TCKEdgeNodeConfig) : World :=
  { node := { config_ := config } }

/-- The member `TCKEdgeNode::start`: the connect request is handed to the transport and
its return code is reported; no data member changes. -/
def start (env : Env) (w : World) : World × Except String Unit :=
  let w1 := w.emit Event.transportConnect
  if env.transport_connect ≠ MQTTASYNC_SUCCESS then
    (w1, Except.error ("Failed to start connect: " ++ toString env.transport_connect))
  else
    (w1, Except.ok ())

/-- The member `TCKEdgeNode::stop`. -/
def stop (w : World) : World :=
  if w.node.running_ then
    let w1 : World := { w with node := { w.node with running_ := false } }
    let w2 := release_edge_node w1
    if w2.node.connected_ then
      let w3 := w2.emit Event.transportDisconnect
      { w3 with node := { w3.node with connected_ := false } }
    else
      w2
  else
    w

/-- The member `TCKEdgeNode::is_running`. -/
def is_running (w : World) : Bool :=
  w.node.running_

/-- The callback `TCKEdgeNode::on_connection_lost`. -/
def on_connection_lost (w : World) (cause : Option String) : World :=
  let line :=
    match cause with
    | some c => "[TCK] Connection lost: " ++ c
    | none => "[TCK] Connection lost"
  let w1 := w.emit (Event.stdout line)
  { w1 with node := { w1.node with connected_ := false } }

/-- The callback `TCKEdgeNode::on_message_arrived`: the message is echoed on the console
and routed by exact topic; other topics are dropped. -/
def on_message_arrived (env : Env) (w : World) (topic payload : String) :
    Except StdException World :=
  let w1 := w.emit (Event.stdout ("[TCK] Received: " ++ topic ++ " -> " ++ payload))
  if topic = "SPARKPLUG_TCK/TEST_CONTROL" then
    Except.ok (handle_test_control env w1 payload)
  else if topic = "SPARKPLUG_TCK/CONSOLE_PROMPT" then
    Except.ok (handle_console_prompt env w1 payload)
  else if topic = "SPARKPLUG_TCK/CONFIG" then
    handle_config env w1 payload
  else if topic = "SPARKPLUG_TCK/RESULT_CONFIG" then
    Except.ok (handle_result_config env w1 payload)
  else
    Except.ok w1

/-- The callback `TCKEdgeNode::on_delivery_complete`. -/
def on_delivery_complete (w : World) : World :=
  w

/-- The callback `TCKEdgeNode::on_connect_success`. -/
def on_connect_success (env : Env) (w : World) : World :=
  let w1 : World := { w with node := { w.node with connected_ := true } }
  let w2 := w1.emit (Event.stdout "[TCK] Connected to broker")
  let w3 := w2.emit
    (Event.subscribeMany
      ["SPARKPLUG_TCK/TEST_CONTROL", "SPARKPLUG_TCK/CONSOLE_PROMPT", "SPARKPLUG_TCK/CONFIG",
       "SPARKPLUG_TCK/RESULT_CONFIG"] [1, 1, 1, 1])
  if env.subscribe_many ≠ MQTTASYNC_SUCCESS then
    w3.emit (Event.stderr ("[TCK] Failed to subscribe: " ++ toString env.subscribe_many))
  else
    w3

/-- The text that the two failure callbacks append for a `MQTTAsync_failureData`
response with its code and optional message. -/
def failureText (response : Option (Int × Option String)) : String :=
  match response with
  | none => ""
  | some (code, none) => ": code=" ++ toString code
  | some (code, some message) => ": code=" ++ toString code ++ ", message=" ++ message

/-- The callback `TCKEdgeNode::on_connect_failure`. -/
def on_connect_failure (w : World) (response : Option (Int × Option String)) : World :=
  let w1 := w.emit (Event.stderr ("[TCK] Connection failed" ++ failureText response))
  { w1 with node := { w1.node with connected_ := false } }

/-- The callback `TCKEdgeNode::on_subscribe_success`. -/
def on_subscribe_success (w : World) : World :=
  let w1 := w.emit (Event.stdout "[TCK] Subscribed to TCK control topics")
  let w2 : World := { w1 with node := { w1.node with running_ := true } }
  let w3 := w2.emit (Event.stdout "[TCK] TCK Edge Node ready")
  w3.emit (Event.stdout "[TCK] Waiting for test commands from TCK Console...")

/-- The callback `TCKEdgeNode::on_subscribe_failure`. -/
def on_subscribe_failure (w : World) (response : Option (Int × Option String)) : World :=
  w.emit (Event.stderr ("[TCK] Subscribe failed" ++ failureText response))

/-- What can happen to the object once it is constructed: a call of a public member or
a callback of the transport. -/
inductive Input where
  | start
  | stop
  | connection_lost (cause : Option String)
  | message_arrived (topic payload : String)
  | delivery_complete
  | connect_success
  | connect_failure (response : Option (Int × Option String))
  | subscribe_success
  | subscribe_failure (response : Option (Int × Option String))
  deriving DecidableEq, Repr

/-- One event of the object's life.  The result is an error when an exception escapes
the callback. -/
def step (env : Env) (w : World) : Input → Except StdException World
  | Input.start => Except.ok (start env w).1
  | Input.stop => Except.ok (stop w)
  | Input.connection_lost cause => Except.ok (on_connection_lost w cause)
  | Input.message_arrived topic payload => on_message_arrived env w topic payload
  | Input.delivery_complete => Except.ok (on_delivery_complete w)
  | Input.connect_success => Except.ok (on_connect_success env w)
  | Input.connect_failure response => Except.ok (on_connect_failure w response)
  | Input.subscribe_success => Except.ok (on_subscribe_success w)
  | Input.subscribe_failure response => Except.ok (on_subscribe_failure w response)

/-- The states the object can be in: the constructed object, and every state in which
an event of its life returns, whatever the outside answers. -/
inductive Reachable : World → Prop where
  | create (config : TCKEdgeNodeConfig) : Reachable (World.create config)
  | step {w w2 : World} (env : Env) (input : Input) :
      Reachable w → step env w input = Except.ok w2 → Reachable w2

/-! ## Observations on the trace -/

/-- The payloads submitted on the result topic, oldest first: the verdicts.  A message
counts as submitted once it is handed to `MQTTAsync_sendMessage`, whatever the return
code, which every caller of `publish_tck` discards. -/
def resultMessages (t : List Event) : List String :=
  t.filterMap fun e =>
    match e with
    | Event.sendMessage topic payload _ =>
      if topic = "SPARKPLUG_TCK/RESULT" then some payload else none
    | _ => none

/-- Whether an event is a call on the session collaborator. -/
def Event.isSessionCall : Event → Bool
  | Event.edgeNodeConstruct _ => true
  | Event.edgeNodeConnect _ => true
  | Event.edgeNodePublishBirth _ => true
  | Event.edgeNodeDisconnect _ => true
  | Event.edgeNodeReset _ => true
  | _ => false

/-- The calls made on the session collaborator, oldest first. -/
def sessionCalls (t : List Event) : List Event :=
  t.filter Event.isSessionCall

/-! ## The parser as the specification words it -/

/-- A piece stripped of its leading and of its trailing space, tab, newline and
carriage-return characters. -/
def stripSpec (piece : List Char) : List Char :=
  (piece.dropWhile isTrimChar).rdropWhile isTrimChar

/-- The tokens of a text as the specification words them: the text is cut at every
single space character; the last piece is left out when it is empty, which is the case
of a text that ends with a space and of the empty text; each piece is stripped. -/
def splitSpec (s : String) : List String :=
  let pieces := s.data.splitOn ' '
  let kept := if pieces.getLast? = some [] then pieces.dropLast else pieces
  kept.map (fun piece => String.mk (stripSpec piece))

/-- A sequence of events handled one after the other with the same answers of the
outside; it stops at the first exception that escapes. -/
def run (env : Env) (w : World) : List Input → Except StdException World
  | [] => Except.ok w
  | input :: rest =>
    match step env w input with
    | Except.error e => Except.error e
    | Except.ok w1 => run env w1 rest

/-- Whether an event is a submission to `MQTTAsync_sendMessage`. -/
def Event.isSend : Event → Bool
  | Event.sendMessage _ _ _ => true
  | _ => false

/-- The messages handed to the transport, on any topic, oldest first. -/
def sentMessages (t : List Event) : List Event :=
  t.filter Event.isSend

/-- The scenario names that `handle_test_control` dispatches to a handler. -/
def declaredScenarios : List String :=
  ["SessionEstablishmentTest", "SessionTerminationTest", "SendDataTest",
   "SendComplexDataTest", "ReceiveCommandTest", "PrimaryHostTest", "MultipleBrokerTest"]

/-- The declared scenarios whose handler only logs a warning and reports
`OVERALL: NOT EXECUTED`. -/
def placeholderScenarios : List String :=
  ["SessionTerminationTest", "SendDataTest", "SendComplexDataTest",
   "ReceiveCommandTest", "PrimaryHostTest", "MultipleBrokerTest"]

/-- What a well-formed `NEW_TEST edge <scenario> [args]` does before it dispatches:
the run is recorded and the start is logged. -/
def startRun (env : Env) (w : World) (scenario : String) (params : List String) : World :=
  log env
    { w with node := { w.node with test_state_ := EdgeTestState.RUNNING,
                                   current_test_name_ := scenario,
                                   current_test_params_ := params } }
    "INFO" ("Starting test: " ++ scenario)

/-- The text of a control message: its tokens separated by single spaces. -/
def joinTokens : List String → String
  | [] => ""
  | [t] => t
  | t :: t2 :: ts => t ++ " " ++ joinTokens (t2 :: ts)

/-- A token free of the characters that `trim` strips (space included). -/
def plainToken (t : String) : Prop :=
  ∀ c ∈ t.data, isTrimChar c = false

/-! ## Concrete environments and states used in the examples -/

/-- Every outside call succeeds. -/
def Env.allSucceed : Env where
  sendMessage := fun _ _ _ => 0
  construct := fun _ => none
  connect := fun _ => CallResult.ok
  publish_birth := fun _ => CallResult.ok

/-- The session is constructed but `connect()` returns the error `refused`. -/
def Env.connectFails : Env where
  sendMessage := fun _ _ _ => 0
  construct := fun _ => none
  connect := fun _ => CallResult.error "refused"
  publish_birth := fun _ => CallResult.ok

/-- The session connects but `publish_birth()` throws. -/
def Env.birthThrows : Env where
  sendMessage := fun _ _ _ => 0
  construct := fun _ => none
  connect := fun _ => CallResult.ok
  publish_birth := fun _ => CallResult.throws "broken pipe"

/-- A freshly constructed object: not connected, idle, no session. -/
def World.initial : World := {}

/-- The object once the transport is connected and the control topics are subscribed. -/
def World.ready : World :=
  { node := { connected_ := true, running_ := true } }

/-- A session built for group `G0` and edge node `E0`. -/
def EdgeNode.sample : EdgeNode :=
  { config := edgeNodeConfig {} "G0" "E0" }

/-- A connected object that holds the session `EdgeNode.sample` of a running
session-establishment scenario. -/
def World.withSession : World :=
  { node :=
      { connected_ := true
        running_ := true
        test_state_ := EdgeTestState.RUNNING
        current_test_name_ := "SessionEstablishmentTest"
        current_test_params_ := ["G0", "E0"]
        edge_node_ := some EdgeNode.sample
        current_group_id_ := "G0"
        current_edge_node_id_ := "E0" } }

/-! ## Basic facts about the reporter -/

theorem resultMessages_append (t u : List Event) :
    resultMessages (t ++ u) = resultMessages t ++ resultMessages u := by
  simp [resultMessages]

theorem sessionCalls_append (t u : List Event) :
    sessionCalls (t ++ u) = sessionCalls t ++ sessionCalls u := by
  simp [sessionCalls]

@[simp] theorem publish_tck_node (env : Env) (w : World) (topic payload : String) (qos : Int) :
    (publish_tck env w topic payload qos).1.node = w.node := by
  unfold publish_tck World.emit
  by_cases hc : w.node.connected_ = true
  · by_cases hrc : env.sendMessage topic payload qos = MQTTASYNC_SUCCESS <;> simp [hc, hrc]
  · simp [hc]

theorem publish_tck_trace (env : Env) (w : World) (topic payload : String) (qos : Int) :
    (publish_tck env w topic payload qos).1.trace =
      if w.node.connected_ then w.trace ++ [Event.sendMessage topic payload qos]
      else w.trace := by
  unfold publish_tck World.emit
  by_cases hc : w.node.connected_ = true
  · by_cases hrc : env.sendMessage topic payload qos = MQTTASYNC_SUCCESS <;> simp [hc, hrc]
  · simp [hc]

@[simp] theorem log_node (env : Env) (w : World) (level message : String) :
    (log env w level message).node = w.node := by
  simp [log, World.emit]

@[simp] theorem log_resultMessages (env : Env) (w : World) (level message : String) :
    resultMessages (log env w level message).trace = resultMessages w.trace := by
  simp only [log, publish_tck_trace, World.emit]
  split <;> simp [resultMessages_append] <;> simp [resultMessages]

@[simp] theorem log_sessionCalls (env : Env) (w : World) (level message : String) :
    sessionCalls (log env w level message).trace = sessionCalls w.trace := by
  simp only [log, publish_tck_trace, World.emit]
  split <;> simp [sessionCalls_append] <;> simp [sessionCalls, Event.isSessionCall]

@[simp] theorem publish_result_node (env : Env) (w : World) (result : String) :
    (publish_result env w result).node =
      { w.node with test_state_ := EdgeTestState.COMPLETED } := by
  simp [publish_result, World.emit]

theorem publish_result_resultMessages (env : Env) (w : World) (result : String) :
    resultMessages (publish_result env w result).trace =
      if w.node.connected_ then resultMessages w.trace ++ [result]
      else resultMessages w.trace := by
  simp only [publish_result, publish_tck_trace, World.emit]
  split <;> simp [resultMessages_append] <;> simp [resultMessages]

@[simp] theorem publish_result_sessionCalls (env : Env) (w : World) (result : String) :
    sessionCalls (publish_result env w result).trace = sessionCalls w.trace := by
  simp only [publish_result, publish_tck_trace, World.emit]
  split <;> simp [sessionCalls_append] <;> simp [sessionCalls, Event.isSessionCall]

/-! ## Basic facts about the session adapter -/

/-- The effect of `create_edge_node` on the data members: nothing when a session
exists; otherwise the two identifiers are recorded and the session slot holds the new
session unless the constructor threw. -/
theorem create_edge_node_node (env : Env) (w : World) (g e : String) :
    (create_edge_node env w g e).1.node =
      if w.node.edge_node_.isSome then w.node
      else
        { w.node with
          current_group_id_ := g
          current_edge_node_id_ := e
          edge_node_ :=
            match env.construct (edgeNodeConfig w.node.config_ g e) with
            | some _ => none
            | none => some { config := edgeNodeConfig w.node.config_ g e } } := by
  by_cases hs : w.node.edge_node_.isSome = true
  · simp [create_edge_node, hs]
  · have hn : w.node.edge_node_ = none := by simpa using hs
    cases hc : env.construct (edgeNodeConfig w.node.config_ g e) with
    | some what => simp [create_edge_node, hs, hc, World.emit, hn]
    | none =>
      cases h1 : env.connect { config := edgeNodeConfig w.node.config_ g e } with
      | ok =>
        cases h2 : env.publish_birth { config := edgeNodeConfig w.node.config_ g e } <;>
          simp [create_edge_node, hs, hc, h1, h2, World.emit]
      | error msg => simp [create_edge_node, hs, hc, h1, World.emit]
      | throws what => simp [create_edge_node, hs, hc, h1, World.emit]

/-- The adapter never submits anything on the result topic. -/
theorem create_edge_node_resultMessages (env : Env) (w : World) (g e : String) :
    resultMessages (create_edge_node env w g e).1.trace = resultMessages w.trace := by
  by_cases hs : w.node.edge_node_.isSome = true
  · simp [create_edge_node, hs]
  · cases hc : env.construct (edgeNodeConfig w.node.config_ g e) with
    | some what =>
      simp [create_edge_node, hs, hc, World.emit, resultMessages_append]
      simp [resultMessages]
    | none =>
      cases h1 : env.connect { config := edgeNodeConfig w.node.config_ g e } with
      | ok =>
        cases h2 : env.publish_birth { config := edgeNodeConfig w.node.config_ g e } <;>
          simp [create_edge_node, hs, hc, h1, h2, World.emit, resultMessages_append] <;>
          simp [resultMessages]
      | error msg =>
        simp [create_edge_node, hs, hc, h1, World.emit, resultMessages_append]
        simp [resultMessages]
      | throws what =>
        simp [create_edge_node, hs, hc, h1, World.emit, resultMessages_append]
        simp [resultMessages]

@[simp] theorem release_edge_node_node (w : World) :
    (release_edge_node w).node = { w.node with edge_node_ := none } := by
  unfold release_edge_node
  split
  · rfl
  · next h =>
    cases w with
    | mk node trace =>
      cases node
      simp_all

theorem release_edge_node_trace (w : World) :
    (release_edge_node w).trace =
      match w.node.edge_node_ with
      | some session =>
        w.trace ++ [Event.edgeNodeDisconnect session, Event.edgeNodeReset session]
      | none => w.trace := by
  unfold release_edge_node
  split <;> simp_all

@[simp] theorem release_edge_node_resultMessages (w : World) :
    resultMessages (release_edge_node w).trace = resultMessages w.trace := by
  rw [release_edge_node_trace]
  split
  · simp [resultMessages_append]
    simp [resultMessages]
  · rfl

theorem release_edge_node_sessionCalls (w : World) :
    sessionCalls (release_edge_node w).trace =
      match w.node.edge_node_ with
      | some session =>
        sessionCalls w.trace ++ [Event.edgeNodeDisconnect session, Event.edgeNodeReset session]
      | none => sessionCalls w.trace := by
  rw [release_edge_node_trace]
  split
  · simp [sessionCalls_append]
    simp [sessionCalls, Event.isSessionCall]
  · rfl

/-! ## Basic facts about the dispatcher -/

theorem split_END_TEST : split "END_TEST" ' ' = ["END_TEST"] := by decide

/-- The data members after `END_TEST`. -/
theorem handle_END_TEST_node (env : Env) (w : World) :
    (handle_test_control env w "END_TEST").node =
      { w.node with
        test_state_ := EdgeTestState.IDLE
        current_test_name_ := ""
        current_test_params_ := []
        edge_node_ := none
        current_group_id_ := ""
        current_edge_node_id_ := ""
        device_ids_ := [] } := by
  simp only [handle_test_control, split_END_TEST]
  simp
  split <;> try split
  all_goals simp

/-- The verdict of `END_TEST`: a `PASS` for a running session-establishment scenario
(submitted when the transport is connected), nothing otherwise. -/
theorem handle_END_TEST_resultMessages (env : Env) (w : World) :
    resultMessages (handle_test_control env w "END_TEST").trace =
      if w.node.connected_ = true ∧ w.node.test_state_ = EdgeTestState.RUNNING ∧
          w.node.current_test_name_ = "SessionEstablishmentTest" then
        resultMessages w.trace ++ ["OVERALL: PASS"]
      else resultMessages w.trace := by
  simp only [handle_test_control, split_END_TEST]
  simp
  by_cases h1 : w.node.test_state_ = EdgeTestState.RUNNING <;>
  by_cases h2 : w.node.current_test_name_ = "SessionEstablishmentTest" <;>
  by_cases h3 : w.node.connected_ = true <;>
  simp [h1, h2, h3, publish_result_resultMessages]

/-- The session calls of `END_TEST`: the held session is disconnected and destroyed. -/
theorem handle_END_TEST_sessionCalls (env : Env) (w : World) :
    sessionCalls (handle_test_control env w "END_TEST").trace =
      match w.node.edge_node_ with
      | some session =>
        sessionCalls w.trace ++ [Event.edgeNodeDisconnect session, Event.edgeNodeReset session]
      | none => sessionCalls w.trace := by
  simp only [handle_test_control, split_END_TEST]
  simp
  by_cases h1 : w.node.test_state_ = EdgeTestState.RUNNING <;>
  by_cases h2 : w.node.current_test_name_ = "SessionEstablishmentTest" <;>
  simp [h1, h2, release_edge_node_sessionCalls]


/-! ## The tokenizer loop always terminates within its bound -/

theorem getline_rest_length (d : Char) (ss tok rest : List Char)
    (h : getline ss d = some (tok, rest)) : rest.length < ss.length := by
  cases ss with
  | nil => simp [getline] at h
  | cons c cs =>
    simp only [getline, Option.some.injEq, Prod.mk.injEq] at h
    rw [← h.2]
    have h2 := (List.dropWhile_sublist (fun x => x != d) (l := cs)).length_le
    by_cases hc : (c != d) = true
    · simp only [List.dropWhile_cons, hc, if_true, List.length_drop, List.length_cons]
      omega
    · simp [List.dropWhile_cons, hc]

/-- Once the bound exceeds the number of unread characters, a larger bound changes
nothing: the loop has ended on a failing `getline` before the bound is reached. -/
theorem splitLoop_fuel (d : Char) (fuel : Nat) :
    ∀ (ss : List Char) (tokens : List String), ss.length < fuel →
      ∀ fuel2, fuel ≤ fuel2 → splitLoop d fuel2 ss tokens = splitLoop d fuel ss tokens := by
  induction fuel with
  | zero => intro ss tokens h; omega
  | succ n ih =>
    intro ss tokens h fuel2 h2
    obtain ⟨m, rfl⟩ : ∃ m, fuel2 = m + 1 := ⟨fuel2 - 1, by omega⟩
    simp only [splitLoop]
    cases hg : getline ss d with
    | none => rfl
    | some p =>
      obtain ⟨tok, rest⟩ := p
      have := getline_rest_length d ss tok rest hg
      exact ih rest _ (by omega) m (by omega)

/-- The loop equation of `split`, free of the bound. -/
theorem split_loop_eq (d : Char) (ss : List Char) (tokens : List String) :
    splitLoop d (ss.length + 1) ss tokens =
      match getline ss d with
      | none => tokens
      | some (token, rest) =>
        splitLoop d (rest.length + 1) rest (tokens ++ [trim (String.mk token)]) := by
  simp only [splitLoop]
  cases hg : getline ss d with
  | none => rfl
  | some p =>
    obtain ⟨tok, rest⟩ := p
    have := getline_rest_length d ss tok rest hg
    exact splitLoop_fuel d (rest.length + 1) rest _ (by omega) _ (by omega)


/-- The result returned by `create_edge_node`. -/
theorem create_edge_node_snd (env : Env) (w : World) (g e : String) :
    (create_edge_node env w g e).2 =
      if w.node.edge_node_.isSome then Except.error "Edge Node already exists"
      else
        match env.construct (edgeNodeConfig w.node.config_ g e) with
        | some what => Except.error ("Exception: " ++ what)
        | none =>
          match env.connect { config := edgeNodeConfig w.node.config_ g e } with
          | CallResult.throws what => Except.error ("Exception: " ++ what)
          | CallResult.error msg => Except.error ("Failed to connect: " ++ msg)
          | CallResult.ok =>
            match env.publish_birth { config := edgeNodeConfig w.node.config_ g e } with
            | CallResult.throws what => Except.error ("Exception: " ++ what)
            | CallResult.error msg => Except.error ("Failed to publish NBIRTH: " ++ msg)
            | CallResult.ok => Except.ok () := by
  by_cases hs : w.node.edge_node_.isSome = true
  · simp [create_edge_node, hs]
  · cases hc : env.construct (edgeNodeConfig w.node.config_ g e) with
    | some what => simp [create_edge_node, hs, hc, World.emit]
    | none =>
      cases h1 : env.connect { config := edgeNodeConfig w.node.config_ g e } with
      | ok =>
        cases h2 : env.publish_birth { config := edgeNodeConfig w.node.config_ g e } <;>
          simp [create_edge_node, hs, hc, h1, h2, World.emit]
      | error msg => simp [create_edge_node, hs, hc, h1, World.emit]
      | throws what => simp [create_edge_node, hs, hc, h1, World.emit]

/-- With a session in place `create_edge_node` makes no call at all. -/
theorem create_edge_node_of_isSome (env : Env) (w : World) (g e : String)
    (h : w.node.edge_node_.isSome = true) :
    create_edge_node env w g e = (w, Except.error "Edge Node already exists") := by
  simp [create_edge_node, h]

@[simp] theorem startRun_node (env : Env) (w : World) (scenario : String)
    (params : List String) :
    (startRun env w scenario params).node =
      { w.node with test_state_ := EdgeTestState.RUNNING,
                    current_test_name_ := scenario,
                    current_test_params_ := params } := by
  simp [startRun]

@[simp] theorem startRun_resultMessages (env : Env) (w : World) (scenario : String)
    (params : List String) :
    resultMessages (startRun env w scenario params).trace = resultMessages w.trace := by
  simp [startRun]

@[simp] theorem startRun_sessionCalls (env : Env) (w : World) (scenario : String)
    (params : List String) :
    sessionCalls (startRun env w scenario params).trace = sessionCalls w.trace := by
  simp [startRun]

theorem handle_NEW_TEST_session_establishment (env : Env) (w : World) (message : String)
    (params : List String)
    (hmsg : split message ' ' = "NEW_TEST" :: "edge" :: "SessionEstablishmentTest" :: params) :
    handle_test_control env w message =
      run_session_establishment_test env
        (startRun env w "SessionEstablishmentTest" params) params := by
  simp [handle_test_control, hmsg, startRun]

theorem handle_NEW_TEST_placeholder (env : Env) (w : World) (message scenario : String)
    (params : List String)
    (hmsg : split message ' ' = "NEW_TEST" :: "edge" :: scenario :: params)
    (hph : scenario ∈ placeholderScenarios) :
    handle_test_control env w message =
      publish_result env
        (log env (startRun env w scenario params) "WARN" (scenario ++ " not yet implemented"))
        "OVERALL: NOT EXECUTED" := by
  simp only [placeholderScenarios, List.mem_cons, List.mem_singleton, List.not_mem_nil,
    or_false] at hph
  rcases hph with h | h | h | h | h | h <;> subst h <;>
    simp [handle_test_control, hmsg, startRun, run_session_termination_test,
      run_send_data_test, run_send_complex_data_test, run_receive_command_test,
      run_primary_host_test, run_multiple_broker_test]

theorem handle_NEW_TEST_unknown (env : Env) (w : World) (message scenario : String)
    (params : List String)
    (hmsg : split message ' ' = "NEW_TEST" :: "edge" :: scenario :: params)
    (hun : scenario ∉ declaredScenarios) :
    handle_test_control env w message =
      publish_result env
        (log env (startRun env w scenario params) "ERROR" ("Unknown test type: " ++ scenario))
        "OVERALL: NOT EXECUTED" := by
  simp only [declaredScenarios, List.mem_cons, List.mem_singleton, List.not_mem_nil,
    or_false, not_or] at hun
  obtain ⟨h1, h2, h3, h4, h5, h6, h7⟩ := hun
  simp [handle_test_control, hmsg, startRun, h1, h2, h3, h4, h5, h6, h7]


/-! ## Basic facts about the session-establishment handler -/

theorem run_session_establishment_test_short (env : Env) (w : World) (params : List String)
    (h : params.length < 2) :
    run_session_establishment_test env w params =
      publish_result env
        (log env w "ERROR" "Missing parameters for SessionEstablishmentTest")
        "OVERALL: NOT EXECUTED" := by
  simp [run_session_establishment_test, h]

theorem run_session_establishment_test_error (env : Env) (w : World) (params : List String)
    (msg : String) (h : ¬ params.length < 2)
    (he : (create_edge_node env w (params.getD 0 "") (params.getD 1 "")).2 =
      Except.error msg) :
    run_session_establishment_test env w params =
      publish_result env
        (log env (create_edge_node env w (params.getD 0 "") (params.getD 1 "")).1 "ERROR" msg)
        "OVERALL: FAIL" := by
  unfold run_session_establishment_test
  simp only [h, if_false]
  split
  · next w1 e heq => rw [heq] at he ⊢; cases he; rfl
  · next w1 u heq => rw [heq] at he; cases he

theorem run_session_establishment_test_ok (env : Env) (w : World) (params : List String)
    (h : ¬ params.length < 2)
    (he : (create_edge_node env w (params.getD 0 "") (params.getD 1 "")).2 = Except.ok ()) :
    run_session_establishment_test env w params =
      log env
        { (create_edge_node env w (params.getD 0 "") (params.getD 1 "")).1 with
          node :=
            { (create_edge_node env w (params.getD 0 "") (params.getD 1 "")).1.node with
              device_ids_ :=
                if params.length > 2 ∧ params.getD 2 "" ≠ "" then split (params.getD 2 "") ' '
                else [] } }
        "INFO" "Edge Node session established successfully" := by
  unfold run_session_establishment_test
  simp only [h, if_false]
  split
  · next w1 e heq => rw [heq] at he; cases he
  · next w1 u heq => rw [heq]

/-- The result returned by `create_edge_node` is an error or a success. -/
theorem except_cases (r : Except String Unit) : (∃ msg, r = Except.error msg) ∨ r = Except.ok () := by
  cases r with
  | error msg => exact Or.inl ⟨msg, rfl⟩
  | ok u => exact Or.inr rfl


/-! ## Messages written token by token -/

theorem trim_plainToken (t : String) (h : plainToken t) : trim t = t := by
  obtain ⟨cs⟩ := t
  unfold trim find_first_not_of find_last_not_of
  cases cs with
  | nil => rfl
  | cons c cs =>
    have hc : isTrimChar c = false := h c (by simp)
    simp only [List.findIdx?_cons, hc, Bool.not_false, if_true]
    have hrev : ∃ d ds, (c :: cs).reverse = d :: ds ∧ isTrimChar d = false := by
      cases hr : (c :: cs).reverse with
      | nil => simp at hr
      | cons d ds =>
        refine ⟨d, ds, rfl, h d ?_⟩
        have : d ∈ (c :: cs).reverse := by rw [hr]; simp
        simp at this
        simp
        tauto
    obtain ⟨d, ds, hr, hd⟩ := hrev
    simp only [hr, List.findIdx?_cons, hd, Bool.not_false, if_true, Option.map_some',
      Option.getD_some, List.drop_zero]
    congr 1
    apply List.take_of_length_le
    simp

theorem splitLoop_acc (d : Char) (fuel : Nat) :
    ∀ (ss : List Char) (tokens : List String),
      splitLoop d fuel ss tokens = tokens ++ splitLoop d fuel ss [] := by
  induction fuel with
  | zero => intro ss tokens; simp [splitLoop]
  | succ n ih =>
    intro ss tokens
    simp only [splitLoop]
    cases hg : getline ss d with
    | none => simp
    | some p =>
      obtain ⟨tok, rest⟩ := p
      simp only []
      rw [ih rest (tokens ++ _), ih rest ([] ++ _)]
      simp

theorem getline_of_ne_nil (ss : List Char) (d : Char) (hne : ss ≠ []) :
    getline ss d = some (ss.takeWhile (· != d), (ss.dropWhile (· != d)).drop 1) := by
  cases ss with
  | nil => exact absurd rfl hne
  | cons c cs => rfl

theorem takeWhile_token_space (tok rest : List Char) (h : ∀ c ∈ tok, c ≠ ' ') :
    (tok ++ ' ' :: rest).takeWhile (· != ' ') = tok := by
  induction tok with
  | nil => simp
  | cons c cs ih =>
    have hc : c ≠ ' ' := h c (by simp)
    simp only [List.cons_append, List.takeWhile_cons, bne_iff_ne, ne_eq, hc,
      not_false_eq_true, if_true]
    rw [ih (fun x hx => h x (by simp [hx]))]

theorem dropWhile_token_space (tok rest : List Char) (h : ∀ c ∈ tok, c ≠ ' ') :
    (tok ++ ' ' :: rest).dropWhile (· != ' ') = ' ' :: rest := by
  induction tok with
  | nil => simp
  | cons c cs ih =>
    have hc : c ≠ ' ' := h c (by simp)
    simp only [List.cons_append, List.dropWhile_cons, bne_iff_ne, ne_eq, hc,
      not_false_eq_true, if_true]
    rw [ih (fun x hx => h x (by simp [hx]))]

theorem getline_token_space (tok rest : List Char) (h : ∀ c ∈ tok, c ≠ ' ') :
    getline (tok ++ ' ' :: rest) ' ' = some (tok, rest) := by
  rw [getline_of_ne_nil _ _ (by simp), takeWhile_token_space tok rest h,
    dropWhile_token_space tok rest h]
  rfl

theorem getline_last_token (tok : List Char) (hne : tok ≠ []) (h : ∀ c ∈ tok, c ≠ ' ') :
    getline tok ' ' = some (tok, []) := by
  have h1 : tok.takeWhile (· != ' ') = tok := by
    rw [List.takeWhile_eq_self_iff]
    intro c hc
    simpa using h c hc
  have h2 : tok.dropWhile (· != ' ') = [] := by
    rw [List.dropWhile_eq_nil_iff]
    intro c hc
    simpa using h c hc
  rw [getline_of_ne_nil _ _ hne, h1, h2]
  rfl

theorem plainToken_no_space (t : String) (h : plainToken t) : ∀ c ∈ t.data, c ≠ ' ' := by
  intro c hc hsp
  have := h c hc
  rw [hsp] at this
  exact absurd this (by decide)

/-- A message made of plain tokens separated by single spaces, the last of them not
empty, is read back by `split` as exactly those tokens. -/
theorem split_joinTokens (ts : List String) (hne : ts ≠ [])
    (hplain : ∀ t ∈ ts, plainToken t) (hlast : ts.getLast hne ≠ "") :
    split (joinTokens ts) ' ' = ts := by
  unfold split
  rw [String.length]
  induction ts with
  | nil => exact absurd rfl hne
  | cons t rest ih =>
    have ht : plainToken t := hplain t (by simp)
    cases rest with
    | nil =>
      have htne : t.data ≠ [] := by
        intro h0
        apply hlast
        obtain ⟨cs⟩ := t
        simp only [List.getLast_singleton]
        simp at h0
        rw [h0]
      simp only [joinTokens]
      rw [split_loop_eq, getline_last_token t.data htne (plainToken_no_space t ht)]
      simp [splitLoop, getline, trim_plainToken t ht]
    | cons t2 rest2 =>
      have hrec := ih (by simp) (fun x hx => hplain x (by simp [hx]))
        (by simpa [List.getLast_cons] using hlast)
      have hdata : (joinTokens (t :: t2 :: rest2)).data =
          t.data ++ ' ' :: (joinTokens (t2 :: rest2)).data := by
        simp [joinTokens, String.data_append]
      rw [hdata, split_loop_eq, getline_token_space _ _ (plainToken_no_space t ht)]
      simp only []
      rw [splitLoop_acc, hrec]
      simp [trim_plainToken t ht]

/-- Every message `NEW_TEST edge <scenario> [args]` written with single spaces between
plain, non-empty tokens is read by the parser as these tokens. -/
theorem split_NEW_TEST_edge (scenario : String) (args : List String)
    (hs : plainToken scenario ∧ scenario ≠ "")
    (ha : ∀ a ∈ args, plainToken a ∧ a ≠ "") :
    split (joinTokens ("NEW_TEST" :: "edge" :: scenario :: args)) ' ' =
      "NEW_TEST" :: "edge" :: scenario :: args := by
  apply split_joinTokens _ (by simp)
  · intro t ht
    simp only [List.mem_cons] at ht
    rcases ht with h | h | h | h
    · subst h; unfold plainToken; decide
    · subst h; unfold plainToken; decide
    · subst h; exact hs.1
    · exact (ha t h).1
  · cases hargs : args with
    | nil => simpa using hs.2
    | cons a rest =>
      have hmem : (a :: rest).getLast (by simp) ∈ args := by
        rw [hargs]; exact List.getLast_mem _
      have := (ha _ hmem).2
      simpa [List.getLast_cons] using this

/-! ## Claims C1 to C10 -/

theorem split_NEW_TEST_G1_E1 :
    split "NEW_TEST edge SessionEstablishmentTest G1 E1" ' ' =
      ["NEW_TEST", "edge", "SessionEstablishmentTest", "G1", "E1"] := by
  decide

/-- C1. From a state with the transport connected and no session, when the constructor,
`connect()` and `publish_birth()` of the session succeed, the message
`NEW_TEST edge SessionEstablishmentTest G1 E1` submits nothing on the result topic and
leaves the session for `G1`/`E1` in place with the test state `RUNNING`; the message
`END_TEST` handled next submits exactly `OVERALL: PASS` on the result topic, disconnects
and destroys that session, and leaves no session and the test state `IDLE`. -/
theorem c1_session_establishment_end_to_end (env1 env2 : Env) (w : World)
    (hconn : w.node.connected_ = true) (hnone : w.node.edge_node_ = none)
    (hcons : env1.construct (edgeNodeConfig w.node.config_ "G1" "E1") = none)
    (hconnect : env1.connect { config := edgeNodeConfig w.node.config_ "G1" "E1" } =
      CallResult.ok)
    (hbirth : env1.publish_birth { config := edgeNodeConfig w.node.config_ "G1" "E1" } =
      CallResult.ok) :
    let w1 := handle_test_control env1 w "NEW_TEST edge SessionEstablishmentTest G1 E1"
    let w2 := handle_test_control env2 w1 "END_TEST"
    let session : EdgeNode := { config := edgeNodeConfig w.node.config_ "G1" "E1" }
    resultMessages w1.trace = resultMessages w.trace ∧
    w1.node.edge_node_ = some session ∧
    w1.node.test_state_ = EdgeTestState.RUNNING ∧
    resultMessages w2.trace = resultMessages w1.trace ++ ["OVERALL: PASS"] ∧
    sessionCalls w2.trace =
      sessionCalls w1.trace ++ [Event.edgeNodeDisconnect session, Event.edgeNodeReset session] ∧
    w2.node.edge_node_ = none ∧
    w2.node.test_state_ = EdgeTestState.IDLE := by
  intro w1 w2 session
  have hok : (create_edge_node env1 (startRun env1 w "SessionEstablishmentTest" ["G1", "E1"])
      "G1" "E1").2 = Except.ok () := by
    rw [create_edge_node_snd]
    simp [hnone, hcons, hconnect, hbirth]
  have hw1 : w1 = _ :=
    (handle_NEW_TEST_session_establishment env1 w _ ["G1", "E1"] split_NEW_TEST_G1_E1).trans
      (run_session_establishment_test_ok env1 _ ["G1", "E1"] (by decide) hok)
  have hnode : w1.node =
      { w.node with
        test_state_ := EdgeTestState.RUNNING
        current_test_name_ := "SessionEstablishmentTest"
        current_test_params_ := ["G1", "E1"]
        edge_node_ := some session
        current_group_id_ := "G1"
        current_edge_node_id_ := "E1"
        device_ids_ := [] } := by
    rw [hw1]
    simp [create_edge_node_node, hnone, hcons, session]
  have hres : resultMessages w1.trace = resultMessages w.trace := by
    rw [hw1]
    simp [create_edge_node_resultMessages]
  refine ⟨hres, ?_, ?_, ?_, ?_, ?_, ?_⟩
  · rw [hnode]
  · rw [hnode]
  · show resultMessages (handle_test_control env2 w1 "END_TEST").trace = _
    rw [handle_END_TEST_resultMessages, hnode]
    simp [hconn]
  · show sessionCalls (handle_test_control env2 w1 "END_TEST").trace = _
    rw [handle_END_TEST_sessionCalls, hnode]
  · show (handle_test_control env2 w1 "END_TEST").node.edge_node_ = _
    rw [handle_END_TEST_node]
  · show (handle_test_control env2 w1 "END_TEST").node.test_state_ = _
    rw [handle_END_TEST_node]

/-- C1 at the ready state with an environment in which every call succeeds. -/
theorem c1_session_establishment_end_to_end_witness :
    World.ready.node.connected_ = true ∧ World.ready.node.edge_node_ = none ∧
    (let w1 := handle_test_control Env.allSucceed World.ready
        "NEW_TEST edge SessionEstablishmentTest G1 E1"
     let w2 := handle_test_control Env.allSucceed w1 "END_TEST"
     let session : EdgeNode := { config := edgeNodeConfig World.ready.node.config_ "G1" "E1" }
     resultMessages w1.trace = resultMessages World.ready.trace ∧
     w1.node.edge_node_ = some session ∧
     w1.node.test_state_ = EdgeTestState.RUNNING ∧
     resultMessages w2.trace = resultMessages w1.trace ++ ["OVERALL: PASS"] ∧
     sessionCalls w2.trace =
       sessionCalls w1.trace ++
         [Event.edgeNodeDisconnect session, Event.edgeNodeReset session] ∧
     w2.node.edge_node_ = none ∧
     w2.node.test_state_ = EdgeTestState.IDLE) :=
  ⟨rfl, rfl,
    c1_session_establishment_end_to_end Env.allSucceed Env.allSucceed World.ready rfl rfl
      rfl rfl rfl⟩


/-- C2. With the transport connected, for every message that the parser reads as
`NEW_TEST edge <scenario> [args]` with a declared scenario (by `split_NEW_TEST_edge` every
message so written with single spaces is one), every argument list and all
answers of the environment (success, error result or thrown exception of the session
collaborator, in both handlers), handling the message and then `END_TEST` submits exactly
one message on the result topic, and it is one of the three verdicts. -/
theorem c2_exactly_one_verdict_per_run (env1 env2 : Env) (w : World)
    (message scenario : String) (params : List String)
    (hconn : w.node.connected_ = true)
    (hmsg : split message ' ' = "NEW_TEST" :: "edge" :: scenario :: params)
    (hknown : scenario ∈ declaredScenarios) :
    ∃ verdict,
      resultMessages
          (handle_test_control env2 (handle_test_control env1 w message) "END_TEST").trace =
        resultMessages w.trace ++ [verdict] ∧
      verdict ∈ ["OVERALL: PASS", "OVERALL: FAIL", "OVERALL: NOT EXECUTED"] := by
  by_cases hse : scenario = "SessionEstablishmentTest"
  · subst hse
    rw [handle_NEW_TEST_session_establishment env1 w message params hmsg]
    by_cases hlen : params.length < 2
    · refine ⟨"OVERALL: NOT EXECUTED", ?_, by simp⟩
      rw [run_session_establishment_test_short env1 _ params hlen,
        handle_END_TEST_resultMessages]
      simp [publish_result_resultMessages, hconn]
    · rcases except_cases (create_edge_node env1
          (startRun env1 w "SessionEstablishmentTest" params)
          (params.getD 0 "") (params.getD 1 "")).2 with ⟨msg, he⟩ | he
      · refine ⟨"OVERALL: FAIL", ?_, by simp⟩
        rw [run_session_establishment_test_error env1 _ params msg hlen he,
          handle_END_TEST_resultMessages]
        simp [publish_result_resultMessages, create_edge_node_resultMessages,
          create_edge_node_node, hconn]
        split <;> simp [hconn]
      · refine ⟨"OVERALL: PASS", ?_, by simp⟩
        rw [run_session_establishment_test_ok env1 _ params hlen he,
          handle_END_TEST_resultMessages]
        simp [create_edge_node_resultMessages, create_edge_node_node, hconn]
        split <;> simp [hconn]
  · have hph : scenario ∈ placeholderScenarios := by
      simp only [declaredScenarios, List.mem_cons, List.mem_singleton, List.not_mem_nil,
        or_false] at hknown
      simp only [placeholderScenarios, List.mem_cons, List.mem_singleton, List.not_mem_nil,
        or_false]
      tauto
    refine ⟨"OVERALL: NOT EXECUTED", ?_, by simp⟩
    rw [handle_NEW_TEST_placeholder env1 w message scenario params hmsg hph,
      handle_END_TEST_resultMessages]
    simp [publish_result_resultMessages, hconn]


/-- C2 on a run whose session fails to connect: the single verdict is the `FAIL`
submitted by the handler, and `END_TEST` adds nothing. -/
theorem c2_exactly_one_verdict_per_run_witness :
    World.ready.node.connected_ = true ∧
    split "NEW_TEST edge SessionEstablishmentTest G1 E1" ' ' =
      "NEW_TEST" :: "edge" :: "SessionEstablishmentTest" :: ["G1", "E1"] ∧
    "SessionEstablishmentTest" ∈ declaredScenarios ∧
    ∃ verdict,
      resultMessages
          (handle_test_control Env.allSucceed
            (handle_test_control Env.connectFails World.ready
              "NEW_TEST edge SessionEstablishmentTest G1 E1") "END_TEST").trace =
        resultMessages World.ready.trace ++ [verdict] ∧
      verdict ∈ ["OVERALL: PASS", "OVERALL: FAIL", "OVERALL: NOT EXECUTED"] :=
  ⟨rfl, split_NEW_TEST_G1_E1, by decide,
    c2_exactly_one_verdict_per_run Env.connectFails Env.allSucceed World.ready
      "NEW_TEST edge SessionEstablishmentTest G1 E1" "SessionEstablishmentTest" ["G1", "E1"]
      rfl split_NEW_TEST_G1_E1 (by decide)⟩

/-- C3. With the transport connected, every message that the parser reads as
`NEW_TEST edge <scenario> [args]` with one of the six placeholder scenarios, whatever
the arguments, submits exactly one message on the result topic, with payload
`OVERALL: NOT EXECUTED`, and leaves the test state `COMPLETED`. -/
theorem c3_placeholder_not_executed (env : Env) (w : World) (message scenario : String)
    (params : List String)
    (hconn : w.node.connected_ = true)
    (hmsg : split message ' ' = "NEW_TEST" :: "edge" :: scenario :: params)
    (hph : scenario ∈ placeholderScenarios) :
    resultMessages (handle_test_control env w message).trace =
      resultMessages w.trace ++ ["OVERALL: NOT EXECUTED"] ∧
    (handle_test_control env w message).node.test_state_ = EdgeTestState.COMPLETED := by
  rw [handle_NEW_TEST_placeholder env w message scenario params hmsg hph]
  simp [publish_result_resultMessages, hconn]

theorem split_NEW_TEST_SendDataTest :
    split "NEW_TEST edge SendDataTest G1 E1 D1" ' ' =
      ["NEW_TEST", "edge", "SendDataTest", "G1", "E1", "D1"] := by
  decide

/-- C3 on `NEW_TEST edge SendDataTest G1 E1 D1` at the ready state. -/
theorem c3_placeholder_not_executed_witness :
    World.ready.node.connected_ = true ∧
    split "NEW_TEST edge SendDataTest G1 E1 D1" ' ' =
      "NEW_TEST" :: "edge" :: "SendDataTest" :: ["G1", "E1", "D1"] ∧
    "SendDataTest" ∈ placeholderScenarios ∧
    resultMessages
        (handle_test_control Env.allSucceed World.ready
          "NEW_TEST edge SendDataTest G1 E1 D1").trace =
      resultMessages World.ready.trace ++ ["OVERALL: NOT EXECUTED"] ∧
    (handle_test_control Env.allSucceed World.ready
        "NEW_TEST edge SendDataTest G1 E1 D1").node.test_state_ = EdgeTestState.COMPLETED :=
  ⟨rfl, split_NEW_TEST_SendDataTest, by decide,
    c3_placeholder_not_executed Env.allSucceed World.ready
      "NEW_TEST edge SendDataTest G1 E1 D1" "SendDataTest" ["G1", "E1", "D1"]
      rfl split_NEW_TEST_SendDataTest (by decide)⟩

/-- C4. A message whose first token is `NEW_TEST` and which has fewer than three tokens,
or whose second token is not `edge`, submits nothing on the result topic, makes no call
on the session collaborator and leaves every data member of the object (test state,
scenario name, parameters, group and edge-node identifiers, device identifiers, session)
as it was. -/
theorem c4_rejected_new_test_leaves_no_mark (env : Env) (w : World) (message : String)
    (hcmd : (split message ' ').head? = some "NEW_TEST")
    (hrej : (split message ' ').length < 3 ∨
      ∃ profile, (split message ' ')[1]? = some profile ∧ profile ≠ "edge") :
    resultMessages (handle_test_control env w message).trace = resultMessages w.trace ∧
    sessionCalls (handle_test_control env w message).trace = sessionCalls w.trace ∧
    (handle_test_control env w message).node = w.node := by
  unfold handle_test_control
  cases hparts : split message ' ' with
  | nil => simp [hparts] at hcmd
  | cons command rest =>
    rw [hparts] at hcmd hrej
    simp only [List.head?_cons, Option.some.injEq] at hcmd
    subst hcmd
    by_cases hlen : ("NEW_TEST" :: rest).length < 3
    · simp only [List.isEmpty_cons, Bool.false_eq_true, if_false, List.getD_cons_zero,
        if_true, hlen]
      simp
    · rcases hrej with h | ⟨profile, h1, h2⟩
      · exact absurd h hlen
      · cases rest with
        | nil => simp at h1
        | cons p rest2 =>
          simp only [List.getElem?_cons_succ, List.getElem?_cons_zero, Option.some.injEq] at h1
          subst h1
          simp only [List.isEmpty_cons, Bool.false_eq_true, if_false, List.getD_cons_zero,
            List.getD_cons_succ, if_true, hlen, h2, ne_eq, not_false_eq_true]
          simp

theorem split_NEW_TEST_host :
    split "NEW_TEST host SessionEstablishmentTest H1" ' ' =
      ["NEW_TEST", "host", "SessionEstablishmentTest", "H1"] := by
  decide

/-- C4 on `NEW_TEST host SessionEstablishmentTest H1` at a state that holds a session. -/
theorem c4_rejected_new_test_leaves_no_mark_witness :
    (split "NEW_TEST host SessionEstablishmentTest H1" ' ').head? = some "NEW_TEST" ∧
    (∃ profile, (split "NEW_TEST host SessionEstablishmentTest H1" ' ')[1]? = some profile ∧
      profile ≠ "edge") ∧
    resultMessages
        (handle_test_control Env.allSucceed World.withSession
          "NEW_TEST host SessionEstablishmentTest H1").trace =
      resultMessages World.withSession.trace ∧
    sessionCalls
        (handle_test_control Env.allSucceed World.withSession
          "NEW_TEST host SessionEstablishmentTest H1").trace =
      sessionCalls World.withSession.trace ∧
    (handle_test_control Env.allSucceed World.withSession
        "NEW_TEST host SessionEstablishmentTest H1").node = World.withSession.node :=
  ⟨by rw [split_NEW_TEST_host]; rfl,
    ⟨"host", by rw [split_NEW_TEST_host]; rfl, by decide⟩,
    c4_rejected_new_test_leaves_no_mark Env.allSucceed World.withSession
      "NEW_TEST host SessionEstablishmentTest H1" (by rw [split_NEW_TEST_host]; rfl)
      (Or.inr ⟨"host", by rw [split_NEW_TEST_host]; rfl, by decide⟩)⟩


/-- C5, as stated, fails while the transport is not connected: with no argument the
handler runs `publish_result`, but `publish_tck` refuses and nothing is submitted on the
result topic. -/
theorem c5_counterexample_not_connected :
    ([] : List String).length < 2 ∧
    World.initial.node.connected_ = false ∧
    resultMessages (run_session_establishment_test Env.allSucceed World.initial []).trace = [] ∧
    "OVERALL: NOT EXECUTED" ∉
      resultMessages (run_session_establishment_test Env.allSucceed World.initial []).trace := by
  decide

/-- C5, amended. With fewer than two arguments the session-establishment handler submits
the verdict `OVERALL: NOT EXECUTED` on the result topic when the transport is connected
(and nothing when it is not), makes no call on the session collaborator, changes no data
member but the test state, which becomes `COMPLETED` (so the session slot and the group
and edge-node identifiers are as before); a second run submits the same verdict again
under the same condition and leaves the data members as the first run left them. -/
theorem c5_missing_parameters_not_executed (env1 env2 : Env) (w : World)
    (params : List String) (hlen : params.length < 2) :
    let w1 := run_session_establishment_test env1 w params
    let w2 := run_session_establishment_test env2 w1 params
    (w.node.connected_ = true →
      resultMessages w1.trace = resultMessages w.trace ++ ["OVERALL: NOT EXECUTED"]) ∧
    (w.node.connected_ = false → resultMessages w1.trace = resultMessages w.trace) ∧
    sessionCalls w1.trace = sessionCalls w.trace ∧
    w1.node = { w.node with test_state_ := EdgeTestState.COMPLETED } ∧
    w1.node.edge_node_ = w.node.edge_node_ ∧
    w1.node.current_group_id_ = w.node.current_group_id_ ∧
    w1.node.current_edge_node_id_ = w.node.current_edge_node_id_ ∧
    (w.node.connected_ = true →
      resultMessages w2.trace = resultMessages w1.trace ++ ["OVERALL: NOT EXECUTED"]) ∧
    (w.node.connected_ = false → resultMessages w2.trace = resultMessages w1.trace) ∧
    sessionCalls w2.trace = sessionCalls w1.trace ∧
    w2.node = w1.node := by
  intro w1 w2
  have h1 : w1 = _ := run_session_establishment_test_short env1 w params hlen
  have h2 : w2 = _ := run_session_establishment_test_short env2 w1 params hlen
  have hn1 : w1.node = { w.node with test_state_ := EdgeTestState.COMPLETED } := by
    rw [h1]; simp
  have hn2 : w2.node = w1.node := by
    rw [h2, publish_result_node, log_node, hn1]
  have hr1 : resultMessages w1.trace =
      if w.node.connected_ then resultMessages w.trace ++ ["OVERALL: NOT EXECUTED"]
      else resultMessages w.trace := by
    rw [h1, publish_result_resultMessages]; simp
  have hr2 : resultMessages w2.trace =
      if w.node.connected_ then resultMessages w1.trace ++ ["OVERALL: NOT EXECUTED"]
      else resultMessages w1.trace := by
    rw [h2, publish_result_resultMessages]; simp [hn1]
  refine ⟨?_, ?_, ?_, hn1, ?_, ?_, ?_, ?_, ?_, ?_, hn2⟩
  · intro hc; rw [hr1]; simp [hc]
  · intro hc; rw [hr1]; simp [hc]
  · rw [h1]; simp
  · rw [hn1]
  · rw [hn1]
  · rw [hn1]
  · intro hc; rw [hr2]; simp [hc]
  · intro hc; rw [hr2]; simp [hc]
  · rw [h2]; simp

/-- C5, amended, on the one-element argument list `G1` at the ready state. -/
theorem c5_missing_parameters_not_executed_witness :
    ["G1"].length < 2 ∧ World.ready.node.connected_ = true ∧
    resultMessages (run_session_establishment_test Env.allSucceed World.ready ["G1"]).trace =
      ["OVERALL: NOT EXECUTED"] ∧
    resultMessages
        (run_session_establishment_test Env.allSucceed
          (run_session_establishment_test Env.allSucceed World.ready ["G1"]) ["G1"]).trace =
      ["OVERALL: NOT EXECUTED", "OVERALL: NOT EXECUTED"] ∧
    (run_session_establishment_test Env.allSucceed
        (run_session_establishment_test Env.allSucceed World.ready ["G1"]) ["G1"]).node =
      (run_session_establishment_test Env.allSucceed World.ready ["G1"]).node := by
  have h := c5_missing_parameters_not_executed Env.allSucceed Env.allSucceed World.ready
    ["G1"] (by decide)
  obtain ⟨h1, -, -, -, -, -, -, h2, -, -, h3⟩ := h
  have e1 := h1 rfl
  have e2 := h2 rfl
  refine ⟨by decide, rfl, ?_, ?_, h3⟩
  · rw [e1]; rfl
  · rw [e2, e1]; rfl


/-- C6. When a session exists, `create_edge_node` returns the error
`Edge Node already exists` for every pair of identifiers, makes no outside call, and
leaves the session and every other data member, the recorded group and edge-node
identifiers included, unchanged. -/
theorem c6_second_create_rejected (env : Env) (w : World) (session : EdgeNode)
    (group_id edge_node_id : String) (hsess : w.node.edge_node_ = some session) :
    (create_edge_node env w group_id edge_node_id).2 =
      Except.error "Edge Node already exists" ∧
    (create_edge_node env w group_id edge_node_id).1 = w ∧
    (create_edge_node env w group_id edge_node_id).1.node.edge_node_ = some session := by
  have h : w.node.edge_node_.isSome = true := by simp [hsess]
  rw [create_edge_node_of_isSome env w group_id edge_node_id h]
  exact ⟨rfl, rfl, hsess⟩

/-- C6 at a state that holds the session for `G0`/`E0`, asked to create `G1`/`E1`. -/
theorem c6_second_create_rejected_witness :
    World.withSession.node.edge_node_ = some EdgeNode.sample ∧
    (create_edge_node Env.allSucceed World.withSession "G1" "E1").2 =
      Except.error "Edge Node already exists" ∧
    (create_edge_node Env.allSucceed World.withSession "G1" "E1").1 = World.withSession ∧
    (create_edge_node Env.allSucceed World.withSession "G1" "E1").1.node.edge_node_ =
      some EdgeNode.sample :=
  ⟨rfl, c6_second_create_rejected Env.allSucceed World.withSession EdgeNode.sample
    "G1" "E1" rfl⟩

/-- C7, as stated, fails: at the ready state (no session), when `connect()` returns an
error, `create_edge_node` returns an error but the session it built stays in
`edge_node_`, and the next `create_edge_node` is rejected as a duplicate. -/
theorem c7_counterexample_connect_error :
    World.ready.node.edge_node_ = none ∧
    Env.connectFails.connect { config := edgeNodeConfig {} "G1" "E1" } =
      CallResult.error "refused" ∧
    (create_edge_node Env.connectFails World.ready "G1" "E1").2 =
      Except.error "Failed to connect: refused" ∧
    (create_edge_node Env.connectFails World.ready "G1" "E1").1.node.edge_node_ =
      some { config := edgeNodeConfig {} "G1" "E1" } ∧
    (create_edge_node Env.allSucceed
        (create_edge_node Env.connectFails World.ready "G1" "E1").1 "G2" "E2").2 =
      Except.error "Edge Node already exists" := by
  decide

/-- C7, amended. From a state with no session, when the session is constructed and then
its `connect()` or its `publish_birth()` fails (by an error result or by an exception),
`create_edge_node` returns an error and the object still holds the session it built;
a later `create_edge_node`, whatever its identifiers and outcomes, is rejected with
`Edge Node already exists`. -/
theorem c7_failed_creation_keeps_session (env env2 : Env) (w : World)
    (group_id edge_node_id group_id2 edge_node_id2 : String)
    (hnone : w.node.edge_node_ = none)
    (hcons : env.construct (edgeNodeConfig w.node.config_ group_id edge_node_id) = none)
    (hfail :
      env.connect { config := edgeNodeConfig w.node.config_ group_id edge_node_id } ≠
        CallResult.ok ∨
      env.publish_birth { config := edgeNodeConfig w.node.config_ group_id edge_node_id } ≠
        CallResult.ok) :
    (∃ msg, (create_edge_node env w group_id edge_node_id).2 = Except.error msg) ∧
    (create_edge_node env w group_id edge_node_id).1.node.edge_node_ =
      some { config := edgeNodeConfig w.node.config_ group_id edge_node_id } ∧
    (create_edge_node env2 (create_edge_node env w group_id edge_node_id).1
        group_id2 edge_node_id2).2 = Except.error "Edge Node already exists" := by
  have hheld : (create_edge_node env w group_id edge_node_id).1.node.edge_node_ =
      some { config := edgeNodeConfig w.node.config_ group_id edge_node_id } := by
    rw [create_edge_node_node]
    simp [hnone, hcons]
  refine ⟨?_, hheld, ?_⟩
  · rw [create_edge_node_snd]
    simp only [hnone, Option.isSome_none, Bool.false_eq_true, if_false, hcons]
    cases h1 : env.connect { config := edgeNodeConfig w.node.config_ group_id edge_node_id } with
    | throws what => exact ⟨_, rfl⟩
    | error msg => exact ⟨_, rfl⟩
    | ok =>
      cases h2 : env.publish_birth
          { config := edgeNodeConfig w.node.config_ group_id edge_node_id } with
      | throws what => exact ⟨_, rfl⟩
      | error msg => exact ⟨_, rfl⟩
      | ok => rcases hfail with h | h
              · exact absurd h1 h
              · exact absurd h2 h
  · rw [create_edge_node_snd, hheld]
    simp

/-- C7, amended, at the ready state with a `publish_birth()` that throws. -/
theorem c7_failed_creation_keeps_session_witness :
    World.ready.node.edge_node_ = none ∧
    Env.birthThrows.construct (edgeNodeConfig World.ready.node.config_ "G1" "E1") = none ∧
    Env.birthThrows.publish_birth
      { config := edgeNodeConfig World.ready.node.config_ "G1" "E1" } ≠ CallResult.ok ∧
    (∃ msg, (create_edge_node Env.birthThrows World.ready "G1" "E1").2 = Except.error msg) ∧
    (create_edge_node Env.birthThrows World.ready "G1" "E1").1.node.edge_node_ =
      some { config := edgeNodeConfig World.ready.node.config_ "G1" "E1" } ∧
    (create_edge_node Env.allSucceed (create_edge_node Env.birthThrows World.ready "G1" "E1").1
        "G1" "E1").2 = Except.error "Edge Node already exists" :=
  ⟨rfl, rfl, by decide,
    c7_failed_creation_keeps_session Env.birthThrows Env.allSucceed World.ready
      "G1" "E1" "G1" "E1" rfl rfl (Or.inr (by decide))⟩


/-- C8, as stated, fails: at a connected state holding the session for `G0`/`E0`, the
well-formed message `NEW_TEST edge SendDataTest G1 E1 D1` leaves that very session in
`edge_node_` and makes no call on it (no disconnect, no destruction). -/
theorem c8_counterexample_session_survives :
    World.withSession.node.edge_node_ = some EdgeNode.sample ∧
    split "NEW_TEST edge SendDataTest G1 E1 D1" ' ' =
      ["NEW_TEST", "edge", "SendDataTest", "G1", "E1", "D1"] ∧
    (handle_test_control Env.allSucceed World.withSession
        "NEW_TEST edge SendDataTest G1 E1 D1").node.edge_node_ = some EdgeNode.sample ∧
    sessionCalls
        (handle_test_control Env.allSucceed World.withSession
          "NEW_TEST edge SendDataTest G1 E1 D1").trace = [] := by
  decide

/-- C8, amended. A session is not destroyed when its run is superseded: in every state
that holds a session, after any message that the parser reads as
`NEW_TEST edge <scenario> [args]` (declared scenario or not) the object holds the same
session, and no call was made on the session collaborator: no disconnect, no destruction
and no construction. -/
theorem c8_new_test_keeps_session (env : Env) (w : World) (session : EdgeNode)
    (message scenario : String) (params : List String)
    (hsess : w.node.edge_node_ = some session)
    (hmsg : split message ' ' = "NEW_TEST" :: "edge" :: scenario :: params) :
    (handle_test_control env w message).node.edge_node_ = some session ∧
    sessionCalls (handle_test_control env w message).trace = sessionCalls w.trace := by
  by_cases hse : scenario = "SessionEstablishmentTest"
  · subst hse
    rw [handle_NEW_TEST_session_establishment env w message params hmsg]
    by_cases hlen : params.length < 2
    · rw [run_session_establishment_test_short env _ params hlen]
      simp [hsess]
    · have hsome : (startRun env w "SessionEstablishmentTest" params).node.edge_node_.isSome =
          true := by simp [hsess]
      have hc := create_edge_node_of_isSome env
        (startRun env w "SessionEstablishmentTest" params)
        (params.getD 0 "") (params.getD 1 "") hsome
      rw [run_session_establishment_test_error env _ params "Edge Node already exists" hlen
        (by rw [hc]), hc]
      simp [hsess]
  · by_cases hknown : scenario ∈ declaredScenarios
    · have hph : scenario ∈ placeholderScenarios := by
        simp only [declaredScenarios, List.mem_cons, List.mem_singleton, List.not_mem_nil,
          or_false] at hknown
        simp only [placeholderScenarios, List.mem_cons, List.mem_singleton,
          List.not_mem_nil, or_false]
        tauto
      rw [handle_NEW_TEST_placeholder env w message scenario params hmsg hph]
      simp [hsess]
    · rw [handle_NEW_TEST_unknown env w message scenario params hmsg hknown]
      simp [hsess]

/-- C8, amended, on a second `NEW_TEST edge SessionEstablishmentTest G1 E1` at a state
that holds the session for `G0`/`E0`. -/
theorem c8_new_test_keeps_session_witness :
    World.withSession.node.edge_node_ = some EdgeNode.sample ∧
    split "NEW_TEST edge SessionEstablishmentTest G1 E1" ' ' =
      "NEW_TEST" :: "edge" :: "SessionEstablishmentTest" :: ["G1", "E1"] ∧
    (handle_test_control Env.allSucceed World.withSession
        "NEW_TEST edge SessionEstablishmentTest G1 E1").node.edge_node_ =
      some EdgeNode.sample ∧
    sessionCalls
        (handle_test_control Env.allSucceed World.withSession
          "NEW_TEST edge SessionEstablishmentTest G1 E1").trace =
      sessionCalls World.withSession.trace :=
  ⟨rfl, split_NEW_TEST_G1_E1,
    c8_new_test_keeps_session Env.allSucceed World.withSession EdgeNode.sample
      "NEW_TEST edge SessionEstablishmentTest G1 E1" "SessionEstablishmentTest" ["G1", "E1"]
      rfl split_NEW_TEST_G1_E1⟩

/-- C9. In every state, with or without a session, `END_TEST` is handled to the end and
yields the test state `IDLE`, no session (a held session is disconnected and destroyed),
and an empty scenario name, parameter list, group identifier, edge-node identifier and
device-identifier list; a second `END_TEST` leaves every data member as the first left
it, submits nothing on the result topic and makes no call on the session collaborator. -/
theorem c9_end_test_resets_and_is_idempotent (env1 env2 : Env) (w : World) :
    let w1 := handle_test_control env1 w "END_TEST"
    let w2 := handle_test_control env2 w1 "END_TEST"
    w1.node.test_state_ = EdgeTestState.IDLE ∧
    w1.node.edge_node_ = none ∧
    w1.node.current_test_name_ = "" ∧
    w1.node.current_test_params_ = [] ∧
    w1.node.current_group_id_ = "" ∧
    w1.node.current_edge_node_id_ = "" ∧
    w1.node.device_ids_ = [] ∧
    sessionCalls w1.trace =
      (match w.node.edge_node_ with
       | some session =>
         sessionCalls w.trace ++
           [Event.edgeNodeDisconnect session, Event.edgeNodeReset session]
       | none => sessionCalls w.trace) ∧
    w2.node = w1.node ∧
    resultMessages w2.trace = resultMessages w1.trace ∧
    sessionCalls w2.trace = sessionCalls w1.trace := by
  intro w1 w2
  have hn1 : w1.node = _ := handle_END_TEST_node env1 w
  have hn2 : w2.node = _ := handle_END_TEST_node env2 w1
  refine ⟨?_, ?_, ?_, ?_, ?_, ?_, ?_, handle_END_TEST_sessionCalls env1 w, ?_, ?_, ?_⟩
  · rw [hn1]
  · rw [hn1]
  · rw [hn1]
  · rw [hn1]
  · rw [hn1]
  · rw [hn1]
  · rw [hn1]
  · rw [hn2, hn1]
  · show resultMessages (handle_test_control env2 w1 "END_TEST").trace = _
    rw [handle_END_TEST_resultMessages, hn1]
    simp
  · show sessionCalls (handle_test_control env2 w1 "END_TEST").trace = _
    rw [handle_END_TEST_sessionCalls, hn1]

/-- C10, as stated, fails: on the string with runs of spaces the parser does not return
the seven tokens of the claim. -/
theorem c10_counterexample_not_seven_tokens :
    split "  NEW_TEST   edge  SessionEstablishmentTest  G1 E1 D1 D2 " ' ' ≠
      ["NEW_TEST", "edge", "SessionEstablishmentTest", "G1", "E1", "D1", "D2"] := by
  decide

/-- C10, amended. On the string made of two spaces, `NEW_TEST`, three spaces, `edge`, two
spaces, `SessionEstablishmentTest`, two spaces, `G1 E1 D1 D2` and one trailing space,
`split` on the space character returns thirteen tokens: every space ends a token, so each
extra space of a run gives an empty token, and the trailing space gives none. -/
theorem c10_split_keeps_empty_tokens :
    split "  NEW_TEST   edge  SessionEstablishmentTest  G1 E1 D1 D2 " ' ' =
      ["", "", "NEW_TEST", "", "", "edge", "", "SessionEstablishmentTest", "",
       "G1", "E1", "D1", "D2"] := by
  decide


/-! ## The transport is used only while connected -/

theorem sentMessages_append (t u : List Event) :
    sentMessages (t ++ u) = sentMessages t ++ sentMessages u := by
  simp [sentMessages]

theorem publish_tck_not_connected (env : Env) (w : World) (topic payload : String) (qos : Int)
    (h : w.node.connected_ = false) :
    publish_tck env w topic payload qos = (w, Except.error "Not connected") := by
  simp [publish_tck, h]

/-- The exact output of `log`: the console line and, when connected, the same line on
the log topic. -/
theorem log_trace (env : Env) (w : World) (level message : String) :
    (log env w level message).trace =
      w.trace ++ Event.stdout ("[" ++ level ++ "] " ++ message) ::
        (if w.node.connected_ then
          [Event.sendMessage "SPARKPLUG_TCK/LOG" ("[" ++ level ++ "] " ++ message) 0]
        else []) := by
  simp only [log, publish_tck_trace, World.emit]
  split <;> simp

theorem log_sentMessages (env : Env) (w : World) (level message : String)
    (h : w.node.connected_ = false) :
    sentMessages (log env w level message).trace = sentMessages w.trace := by
  rw [log_trace]
  simp [h, sentMessages_append]
  simp [sentMessages, Event.isSend]

theorem publish_result_sentMessages (env : Env) (w : World) (result : String)
    (h : w.node.connected_ = false) :
    sentMessages (publish_result env w result).trace = sentMessages w.trace := by
  simp only [publish_result, publish_tck_trace, World.emit]
  simp [h, sentMessages_append]
  simp [sentMessages, Event.isSend]

@[simp] theorem publish_console_reply_node (env : Env) (w : World) (reply : String) :
    (publish_console_reply env w reply).node = w.node := by
  simp [publish_console_reply, World.emit]

theorem publish_console_reply_sentMessages (env : Env) (w : World) (reply : String)
    (h : w.node.connected_ = false) :
    sentMessages (publish_console_reply env w reply).trace = sentMessages w.trace := by
  simp only [publish_console_reply, publish_tck_trace, World.emit]
  simp [h, sentMessages_append]
  simp [sentMessages, Event.isSend]

theorem create_edge_node_sentMessages (env : Env) (w : World) (g e : String)
    (h : w.node.connected_ = false) :
    sentMessages (create_edge_node env w g e).1.trace = sentMessages w.trace := by
  by_cases hs : w.node.edge_node_.isSome = true
  · simp [create_edge_node, hs]
  · cases hc : env.construct (edgeNodeConfig w.node.config_ g e) with
    | some what =>
      simp [create_edge_node, hs, hc, World.emit, sentMessages_append, log_sentMessages, h]
      simp [sentMessages, Event.isSend]
    | none =>
      cases h1 : env.connect { config := edgeNodeConfig w.node.config_ g e } with
      | ok =>
        cases h2 : env.publish_birth { config := edgeNodeConfig w.node.config_ g e } <;>
          simp [create_edge_node, hs, hc, h1, h2, World.emit, sentMessages_append,
            log_sentMessages, h] <;>
          simp [sentMessages, Event.isSend]
      | error msg =>
        simp [create_edge_node, hs, hc, h1, World.emit, sentMessages_append,
          log_sentMessages, h]
        simp [sentMessages, Event.isSend]
      | throws what =>
        simp [create_edge_node, hs, hc, h1, World.emit, sentMessages_append,
          log_sentMessages, h]
        simp [sentMessages, Event.isSend]


/-! ## The shape of `handle_test_control` -/

/-- A message whose first token is `END_TEST` is handled like the bare `END_TEST`. -/
theorem handle_END_TEST_any (env : Env) (w : World) (message : String)
    (h : (split message ' ').head? = some "END_TEST") :
    handle_test_control env w message = handle_test_control env w "END_TEST" := by
  cases hparts : split message ' ' with
  | nil => simp [hparts] at h
  | cons command rest =>
    rw [hparts] at h
    simp only [List.head?_cons, Option.some.injEq] at h
    subst h
    simp [handle_test_control, hparts, split_END_TEST]

/-- The four ways in which `handle_test_control` treats a message: dropped, rejected
with one log line, accepted as `NEW_TEST edge <scenario> [args]`, or `END_TEST`. -/
theorem handle_test_control_cases (env : Env) (w : World) (message : String) :
    handle_test_control env w message = w ∨
    (∃ level text, handle_test_control env w message = log env w level text) ∨
    (∃ scenario params,
      split message ' ' = "NEW_TEST" :: "edge" :: scenario :: params) ∨
    (split message ' ').head? = some "END_TEST" := by
  cases hparts : split message ' ' with
  | nil => left; simp [handle_test_control, hparts]
  | cons command rest =>
    by_cases hnew : command = "NEW_TEST"
    · subst hnew
      by_cases hlen : ("NEW_TEST" :: rest).length < 3
      · right; left
        refine ⟨"ERROR", "Invalid NEW_TEST command format", ?_⟩
        simp only [handle_test_control, hparts, List.isEmpty_cons, Bool.false_eq_true,
          if_false, List.getD_cons_zero, if_true, hlen]
      · cases rest with
        | nil => simp at hlen
        | cons p rest2 =>
          cases rest2 with
          | nil => simp at hlen
          | cons t params =>
            by_cases hp : p = "edge"
            · subst hp
              right; right; left
              exact ⟨t, params, rfl⟩
            · right; left
              refine ⟨"WARN", "Ignoring non-edge test: " ++ p, ?_⟩
              simp only [handle_test_control, hparts, List.isEmpty_cons, Bool.false_eq_true,
                if_false, List.getD_cons_zero, List.getD_cons_succ, if_true, hlen, hp, ne_eq,
                not_false_eq_true]
    · by_cases hend : command = "END_TEST"
      · subst hend
        right; right; right
        simp
      · left
        simp [handle_test_control, hparts, hnew, hend]


theorem placeholder_of_declared (scenario : String) (h : scenario ∈ declaredScenarios)
    (hse : scenario ≠ "SessionEstablishmentTest") : scenario ∈ placeholderScenarios := by
  simp only [declaredScenarios, List.mem_cons, List.mem_singleton, List.not_mem_nil,
    or_false] at h
  simp only [placeholderScenarios, List.mem_cons, List.mem_singleton, List.not_mem_nil,
    or_false]
  tauto

/-- The data members that `create_edge_node` never writes. -/
theorem create_edge_node_frame (env : Env) (w : World) (g e : String) :
    (create_edge_node env w g e).1.node.connected_ = w.node.connected_ ∧
    (create_edge_node env w g e).1.node.running_ = w.node.running_ ∧
    (create_edge_node env w g e).1.node.config_ = w.node.config_ ∧
    (create_edge_node env w g e).1.node.test_state_ = w.node.test_state_ ∧
    (create_edge_node env w g e).1.node.current_test_name_ = w.node.current_test_name_ ∧
    (create_edge_node env w g e).1.node.current_test_params_ = w.node.current_test_params_ ∧
    (create_edge_node env w g e).1.node.device_ids_ = w.node.device_ids_ := by
  rw [create_edge_node_node]
  split <;> exact ⟨rfl, rfl, rfl, rfl, rfl, rfl, rfl⟩

/-- What an accepted `NEW_TEST` leaves behind, whatever the scenario and the outcome:
the flags and the configuration are untouched, the run is recorded, the test state is
`RUNNING` or `COMPLETED`, and nothing is sent while the transport is not connected. -/
theorem handle_NEW_TEST_accepted (env : Env) (w : World) (message scenario : String)
    (params : List String)
    (hmsg : split message ' ' = "NEW_TEST" :: "edge" :: scenario :: params) :
    (handle_test_control env w message).node.connected_ = w.node.connected_ ∧
    (handle_test_control env w message).node.running_ = w.node.running_ ∧
    (handle_test_control env w message).node.config_ = w.node.config_ ∧
    ((handle_test_control env w message).node.test_state_ = EdgeTestState.RUNNING ∨
      (handle_test_control env w message).node.test_state_ = EdgeTestState.COMPLETED) ∧
    (handle_test_control env w message).node.current_test_name_ = scenario ∧
    (handle_test_control env w message).node.current_test_params_ = params ∧
    (w.node.connected_ = false →
      sentMessages (handle_test_control env w message).trace = sentMessages w.trace) := by
  have hstart : ∀ h : w.node.connected_ = false,
      sentMessages (startRun env w scenario params).trace = sentMessages w.trace := by
    intro h
    unfold startRun
    rw [log_sentMessages _ _ _ _ (by simpa using h)]
  by_cases hse : scenario = "SessionEstablishmentTest"
  · subst hse
    rw [handle_NEW_TEST_session_establishment env w message params hmsg]
    by_cases hlen : params.length < 2
    · rw [run_session_establishment_test_short env _ params hlen]
      refine ⟨by simp, by simp, by simp, Or.inr (by simp), by simp, by simp, ?_⟩
      intro h
      rw [publish_result_sentMessages _ _ _ (by simpa using h),
        log_sentMessages _ _ _ _ (by simpa using h), hstart h]
    · obtain ⟨f1, f2, f3, f4, f5, f6, -⟩ := create_edge_node_frame env
        (startRun env w "SessionEstablishmentTest" params)
        (params.getD 0 "") (params.getD 1 "")
      simp only [startRun_node] at f1 f2 f3 f4 f5 f6
      rcases except_cases (create_edge_node env
          (startRun env w "SessionEstablishmentTest" params)
          (params.getD 0 "") (params.getD 1 "")).2 with ⟨msg, he⟩ | he
      · rw [run_session_establishment_test_error env _ params msg hlen he]
        simp only [publish_result_node, log_node]
        refine ⟨f1, f2, f3, Or.inr trivial, f5, f6, ?_⟩
        intro h
        rw [publish_result_sentMessages _ _ _ (by rw [log_node]; exact f1.trans h),
          log_sentMessages _ _ _ _ (f1.trans h),
          create_edge_node_sentMessages _ _ _ _ (by simpa using h), hstart h]
      · rw [run_session_establishment_test_ok env _ params hlen he]
        simp only [log_node]
        refine ⟨f1, f2, f3, Or.inl f4, f5, f6, ?_⟩
        intro h
        refine Eq.trans (log_sentMessages _ _ _ _ ?_) ?_
        · exact f1.trans h
        · exact (create_edge_node_sentMessages _ _ _ _ (by simpa using h)).trans (hstart h)
  · by_cases hknown : scenario ∈ declaredScenarios
    · rw [handle_NEW_TEST_placeholder env w message scenario params hmsg
        (placeholder_of_declared scenario hknown hse)]
      refine ⟨by simp, by simp, by simp, Or.inr (by simp), by simp, by simp, ?_⟩
      intro h
      rw [publish_result_sentMessages _ _ _ (by simpa using h),
        log_sentMessages _ _ _ _ (by simpa using h), hstart h]
    · rw [handle_NEW_TEST_unknown env w message scenario params hmsg hknown]
      refine ⟨by simp, by simp, by simp, Or.inr (by simp), by simp, by simp, ?_⟩
      intro h
      rw [publish_result_sentMessages _ _ _ (by simpa using h),
        log_sentMessages _ _ _ _ (by simpa using h), hstart h]


theorem release_edge_node_sentMessages (w : World) :
    sentMessages (release_edge_node w).trace = sentMessages w.trace := by
  rw [release_edge_node_trace]
  split
  · simp [sentMessages_append]
    simp [sentMessages, Event.isSend]
  · rfl

theorem handle_END_TEST_sentMessages (env : Env) (w : World)
    (h : w.node.connected_ = false) :
    sentMessages (handle_test_control env w "END_TEST").trace = sentMessages w.trace := by
  simp only [handle_test_control, split_END_TEST]
  simp
  by_cases h1 : w.node.test_state_ = EdgeTestState.RUNNING <;>
  by_cases h2 : w.node.current_test_name_ = "SessionEstablishmentTest" <;>
  simp [h1, h2, release_edge_node_sentMessages, publish_result_sentMessages,
    log_sentMessages, h]

/-- What `handle_test_control` never does, for every message: it leaves the two flags
and the configuration alone, it sends nothing while the transport is not connected, and
it ends in one of three ways: the data members are as before, or the test state is
`RUNNING` or `COMPLETED`, or the test state is `IDLE` and no session is held. -/
theorem handle_test_control_frame (env : Env) (w : World) (message : String) :
    (handle_test_control env w message).node.connected_ = w.node.connected_ ∧
    (handle_test_control env w message).node.running_ = w.node.running_ ∧
    (handle_test_control env w message).node.config_ = w.node.config_ ∧
    ((handle_test_control env w message).node = w.node ∨
      (handle_test_control env w message).node.test_state_ = EdgeTestState.RUNNING ∨
      (handle_test_control env w message).node.test_state_ = EdgeTestState.COMPLETED ∨
      ((handle_test_control env w message).node.test_state_ = EdgeTestState.IDLE ∧
        (handle_test_control env w message).node.edge_node_ = none)) ∧
    (w.node.connected_ = false →
      sentMessages (handle_test_control env w message).trace = sentMessages w.trace) := by
  rcases handle_test_control_cases env w message with h | ⟨level, text, h⟩ |
    ⟨scenario, params, h⟩ | h
  · rw [h]
    exact ⟨rfl, rfl, rfl, Or.inl rfl, fun _ => rfl⟩
  · rw [h]
    exact ⟨by simp, by simp, by simp, Or.inl (by simp),
      fun hc => log_sentMessages _ _ _ _ hc⟩
  · obtain ⟨a1, a2, a3, a4, -, -, a7⟩ := handle_NEW_TEST_accepted env w message scenario params h
    refine ⟨a1, a2, a3, ?_, a7⟩
    rcases a4 with a4 | a4
    · exact Or.inr (Or.inl a4)
    · exact Or.inr (Or.inr (Or.inl a4))
  · rw [handle_END_TEST_any env w message h]
    refine ⟨?_, ?_, ?_, Or.inr (Or.inr (Or.inr ⟨?_, ?_⟩)),
      fun hc => handle_END_TEST_sentMessages env w hc⟩ <;>
    rw [handle_END_TEST_node]


/-! ## Configuration, result-configuration and console-prompt handlers -/

/-- When `handle_config` returns, either nothing happened or exactly the UTC window
was assigned and one line was logged. -/
theorem handle_config_ok (env : Env) (w w2 : World) (message : String)
    (h : handle_config env w message = Except.ok w2) :
    w2 = w ∨
    ∃ v : Int,
      w2 = log env
        { w with node := { w.node with config_ := { w.node.config_ with utc_window_ms := v } } }
        "INFO" ("UTC window set to " ++ toString v ++ " ms") := by
  unfold handle_config at h
  simp only [] at h
  by_cases hc : (split message ' ').length ≥ 2 ∧ (split message ' ').getD 0 "" = "UTCwindow"
  · rw [if_pos hc] at h
    cases hv : stoi ((split message ' ').getD 1 "") with
    | error e => rw [hv] at h; cases h
    | ok v =>
      rw [hv] at h
      right
      refine ⟨v, ?_⟩
      simp only [Except.ok.injEq] at h
      exact h.symm
  · rw [if_neg hc] at h
    left
    simp only [Except.ok.injEq] at h
    exact h.symm

theorem handle_result_config_cases (env : Env) (w : World) (message : String) :
    handle_result_config env w message = w ∨
    handle_result_config env w message = log env w "INFO" ("Result config: " ++ message) := by
  unfold handle_result_config
  simp only []
  split
  · exact Or.inr rfl
  · exact Or.inl rfl

@[simp] theorem handle_console_prompt_node (env : Env) (w : World) (message : String) :
    (handle_console_prompt env w message).node = w.node := by
  unfold handle_console_prompt
  simp only []
  split <;> simp [World.emit]

theorem emit_sentMessages (w : World) (e : Event) (h : e.isSend = false) :
    sentMessages (w.emit e).trace = sentMessages w.trace := by
  simp [World.emit, sentMessages, h]

theorem handle_console_prompt_sentMessages (env : Env) (w : World) (message : String)
    (h : w.node.connected_ = false) :
    sentMessages (handle_console_prompt env w message).trace = sentMessages w.trace := by
  unfold handle_console_prompt
  simp only []
  split
  · rw [publish_console_reply_sentMessages _ _ _ (by simpa [World.emit] using h)]
    simp [World.emit, sentMessages, Event.isSend]
  · simp [World.emit, sentMessages, Event.isSend]


/-! ## One event of the object's life -/

theorem stop_not_running (w : World) (h : w.node.running_ = false) : stop w = w := by
  simp [stop, h]

theorem stop_running_node (w : World) (h : w.node.running_ = true) :
    (stop w).node =
      { w.node with running_ := false, connected_ := false, edge_node_ := none } := by
  unfold stop
  simp only [h, if_true]
  by_cases hc : w.node.connected_ = true
  · simp [hc, World.emit]
  · have hc2 : w.node.connected_ = false := by simpa using hc
    simp [hc2]

theorem stop_sentMessages (w : World) : sentMessages (stop w).trace = sentMessages w.trace := by
  unfold stop
  simp only []
  split
  · split
    · simp [World.emit, sentMessages_append, release_edge_node_sentMessages]
      simp [sentMessages, Event.isSend]
    · simp [release_edge_node_sentMessages]
  · rfl

/-- The routing of `on_message_arrived`, when it returns: after the console echo, one
of the four handlers ran, or the topic was none of theirs. -/
theorem on_message_arrived_ok (env : Env) (w w2 : World) (topic payload : String)
    (h : on_message_arrived env w topic payload = Except.ok w2) :
    ∃ w1 : World, w1.node = w.node ∧ sentMessages w1.trace = sentMessages w.trace ∧
      (w2 = handle_test_control env w1 payload ∨
        w2 = handle_console_prompt env w1 payload ∨
        handle_config env w1 payload = Except.ok w2 ∨
        w2 = handle_result_config env w1 payload ∨
        w2 = w1) := by
  refine ⟨w.emit (Event.stdout ("[TCK] Received: " ++ topic ++ " -> " ++ payload)), rfl,
    emit_sentMessages w _ rfl, ?_⟩
  simp only [on_message_arrived] at h
  split at h
  · simp only [Except.ok.injEq] at h
    exact Or.inl h.symm
  · split at h
    · simp only [Except.ok.injEq] at h
      exact Or.inr (Or.inl h.symm)
    · split at h
      · exact Or.inr (Or.inr (Or.inl h))
      · split at h
        · simp only [Except.ok.injEq] at h
          exact Or.inr (Or.inr (Or.inr (Or.inl h.symm)))
        · simp only [Except.ok.injEq] at h
          exact Or.inr (Or.inr (Or.inr (Or.inr h.symm)))

/-- The shape of a handled message, from the state `w1` reached after the echo. -/
theorem handled_message_shape (env : Env) (w1 w2 : World) (payload : String)
    (h : w2 = handle_test_control env w1 payload ∨
        w2 = handle_console_prompt env w1 payload ∨
        handle_config env w1 payload = Except.ok w2 ∨
        w2 = handle_result_config env w1 payload ∨
        w2 = w1) :
    ((w2.node.test_state_ = w1.node.test_state_ ∧
        (w2.node.edge_node_ = w1.node.edge_node_ ∨ w2.node.edge_node_ = none)) ∨
      w2.node.test_state_ = EdgeTestState.RUNNING ∨
      w2.node.test_state_ = EdgeTestState.COMPLETED ∨
      (w2.node.test_state_ = EdgeTestState.IDLE ∧ w2.node.edge_node_ = none)) ∧
    (w1.node.connected_ = false → sentMessages w2.trace = sentMessages w1.trace) := by
  rcases h with h | h | h | h | h
  · subst h
    obtain ⟨-, -, -, a4, a5⟩ := handle_test_control_frame env w1 payload
    refine ⟨?_, a5⟩
    rcases a4 with a4 | a4 | a4 | a4
    · rw [a4]; exact Or.inl ⟨rfl, Or.inl rfl⟩
    · exact Or.inr (Or.inl a4)
    · exact Or.inr (Or.inr (Or.inl a4))
    · exact Or.inr (Or.inr (Or.inr a4))
  · subst h
    refine ⟨Or.inl ?_, handle_console_prompt_sentMessages env w1 payload⟩
    rw [handle_console_prompt_node]
    exact ⟨rfl, Or.inl rfl⟩
  · rcases handle_config_ok env w1 w2 payload h with h2 | ⟨v, h2⟩
    · subst h2
      exact ⟨Or.inl ⟨rfl, Or.inl rfl⟩, fun _ => rfl⟩
    · subst h2
      refine ⟨Or.inl ?_, fun hc => log_sentMessages _ _ _ _ hc⟩
      rw [log_node]
      exact ⟨rfl, Or.inl rfl⟩
  · subst h
    rcases handle_result_config_cases env w1 payload with h2 | h2
    · rw [h2]
      exact ⟨Or.inl ⟨rfl, Or.inl rfl⟩, fun _ => rfl⟩
    · rw [h2]
      refine ⟨Or.inl ?_, fun hc => log_sentMessages _ _ _ _ hc⟩
      rw [log_node]
      exact ⟨rfl, Or.inl rfl⟩
  · subst h
    exact ⟨Or.inl ⟨rfl, Or.inl rfl⟩, fun _ => rfl⟩

/-- How one event can move the test state and the session slot, and that it sends
nothing while the transport is not connected. -/
theorem step_shape (env : Env) (w w2 : World) (input : Input)
    (h : step env w input = Except.ok w2) :
    ((w2.node.test_state_ = w.node.test_state_ ∧
        (w2.node.edge_node_ = w.node.edge_node_ ∨ w2.node.edge_node_ = none)) ∨
      w2.node.test_state_ = EdgeTestState.RUNNING ∨
      w2.node.test_state_ = EdgeTestState.COMPLETED ∨
      (w2.node.test_state_ = EdgeTestState.IDLE ∧ w2.node.edge_node_ = none)) ∧
    (w.node.connected_ = false → sentMessages w2.trace = sentMessages w.trace) := by
  cases input with
  | start =>
    simp only [step, Except.ok.injEq] at h
    subst h
    refine ⟨Or.inl ?_, fun _ => ?_⟩
    · unfold start; simp only []; split <;> simp [World.emit]
    · unfold start; simp only []
      split <;> simp [World.emit, sentMessages, Event.isSend]
  | stop =>
    simp only [step, Except.ok.injEq] at h
    subst h
    refine ⟨Or.inl ?_, fun _ => stop_sentMessages w⟩
    by_cases hr : w.node.running_ = true
    · rw [stop_running_node w hr]
      exact ⟨rfl, Or.inr rfl⟩
    · rw [stop_not_running w (by simpa using hr)]
      exact ⟨rfl, Or.inl rfl⟩
  | connection_lost cause =>
    simp only [step, Except.ok.injEq] at h
    subst h
    exact ⟨Or.inl ⟨rfl, Or.inl rfl⟩, fun _ => by
      simp [on_connection_lost, World.emit, sentMessages, Event.isSend]⟩
  | message_arrived topic payload =>
    simp only [step] at h
    obtain ⟨w1, hn, hs, hd⟩ := on_message_arrived_ok env w w2 topic payload h
    have key := handled_message_shape env w1 w2 payload hd
    rw [hn, hs] at key
    exact key
  | delivery_complete =>
    simp only [step, Except.ok.injEq] at h
    subst h
    exact ⟨Or.inl ⟨rfl, Or.inl rfl⟩, fun _ => rfl⟩
  | connect_success =>
    simp only [step, Except.ok.injEq] at h
    subst h
    refine ⟨Or.inl ?_, fun _ => ?_⟩
    · unfold on_connect_success; simp only []; split <;> simp [World.emit]
    · unfold on_connect_success; simp only []
      split <;> simp [World.emit, sentMessages, Event.isSend]
  | connect_failure response =>
    simp only [step, Except.ok.injEq] at h
    subst h
    exact ⟨Or.inl ⟨rfl, Or.inl rfl⟩, fun _ => by
      simp [on_connect_failure, World.emit, sentMessages, Event.isSend]⟩
  | subscribe_success =>
    simp only [step, Except.ok.injEq] at h
    subst h
    exact ⟨Or.inl ⟨rfl, Or.inl rfl⟩, fun _ => by
      simp [on_subscribe_success, World.emit, sentMessages, Event.isSend]⟩
  | subscribe_failure response =>
    simp only [step, Except.ok.injEq] at h
    subst h
    exact ⟨Or.inl ⟨rfl, Or.inl rfl⟩, fun _ => by
      simp [on_subscribe_failure, World.emit, sentMessages, Event.isSend]⟩


/-! ## Claims C14, C20, C17, C18, C15 and C16 -/

/-- C14. While the transport-connected flag is false, `publish_tck` returns the error
`Not connected` for every topic, payload and reliability level and hands nothing to the
transport (state and trace are unchanged); hence `log`, `publish_result` and
`publish_console_reply` submit nothing, and no event of the object's life that starts
with the flag false submits a message: every submission is made in a state whose
connected flag is true. -/
theorem c14_no_publish_while_disconnected (env : Env) (w : World)
    (hdis : w.node.connected_ = false) :
    (∀ (topic payload : String) (qos : Int),
      publish_tck env w topic payload qos = (w, Except.error "Not connected")) ∧
    (∀ level message : String,
      sentMessages (log env w level message).trace = sentMessages w.trace) ∧
    (∀ result : String,
      sentMessages (publish_result env w result).trace = sentMessages w.trace) ∧
    (∀ reply : String,
      sentMessages (publish_console_reply env w reply).trace = sentMessages w.trace) ∧
    (∀ (input : Input) (w2 : World), step env w input = Except.ok w2 →
      sentMessages w2.trace = sentMessages w.trace) :=
  ⟨fun topic payload qos => publish_tck_not_connected env w topic payload qos hdis,
    fun level message => log_sentMessages env w level message hdis,
    fun result => publish_result_sentMessages env w result hdis,
    fun reply => publish_console_reply_sentMessages env w reply hdis,
    fun input w2 h => (step_shape env w w2 input h).2 hdis⟩

/-- C14 at the constructed object, which is not connected: a placeholder scenario is
handled, its verdict is printed, and nothing reaches the transport. -/
theorem c14_no_publish_while_disconnected_witness :
    World.initial.node.connected_ = false ∧
    publish_tck Env.allSucceed World.initial "SPARKPLUG_TCK/RESULT" "OVERALL: PASS" 1 =
      (World.initial, Except.error "Not connected") ∧
    sentMessages (publish_result Env.allSucceed World.initial "OVERALL: PASS").trace = [] ∧
    (∀ w2 : World,
      step Env.allSucceed World.initial
          (Input.message_arrived "SPARKPLUG_TCK/TEST_CONTROL" "NEW_TEST edge SendDataTest") =
        Except.ok w2 →
      sentMessages w2.trace = []) := by
  obtain ⟨h1, -, h3, -, h5⟩ :=
    c14_no_publish_while_disconnected Env.allSucceed World.initial rfl
  exact ⟨rfl, h1 _ _ _, h3 _, fun w2 h => h5 _ w2 h⟩

/-- C20. With the running flag false `stop` changes nothing: the connected flag, the
session and the trace are as before, so no transport disconnect is issued and a held
session is neither disconnected nor destroyed.  With the running flag true, after `stop`
the running flag is false, the connected flag is false and no session is held.  Hence
`stop` applied twice equals `stop` applied once. -/
theorem c20_stop_guarded_by_running_flag (w : World) :
    (w.node.running_ = false → stop w = w) ∧
    (w.node.running_ = true →
      (stop w).node.running_ = false ∧ (stop w).node.connected_ = false ∧
      (stop w).node.edge_node_ = none) ∧
    stop (stop w) = stop w := by
  refine ⟨stop_not_running w, fun hr => ?_, ?_⟩
  · rw [stop_running_node w hr]
    exact ⟨rfl, rfl, rfl⟩
  · by_cases hr : w.node.running_ = true
    · apply stop_not_running
      rw [stop_running_node w hr]
    · rw [stop_not_running w (by simpa using hr)]
      exact stop_not_running w (by simpa using hr)

/-- C20 on two states that hold a session: one that is connected but not running, which
`stop` leaves alone, and the running one, which `stop` shuts down. -/
theorem c20_stop_guarded_by_running_flag_witness :
    ({ World.withSession with node := { World.withSession.node with running_ := false } } :
      World).node.running_ = false ∧
    stop { World.withSession with node := { World.withSession.node with running_ := false } } =
      { World.withSession with node := { World.withSession.node with running_ := false } } ∧
    World.withSession.node.running_ = true ∧
    (stop World.withSession).node.running_ = false ∧
    (stop World.withSession).node.connected_ = false ∧
    (stop World.withSession).node.edge_node_ = none ∧
    (stop World.withSession).trace =
      [Event.edgeNodeDisconnect EdgeNode.sample, Event.edgeNodeReset EdgeNode.sample,
       Event.transportDisconnect] ∧
    stop (stop World.withSession) = stop World.withSession := by
  have h1 := c20_stop_guarded_by_running_flag
    { World.withSession with node := { World.withSession.node with running_ := false } }
  have h2 := c20_stop_guarded_by_running_flag World.withSession
  obtain ⟨a, b, c⟩ := h2.2.1 rfl
  exact ⟨rfl, h1.1 rfl, rfl, a, b, c, by decide, h2.2.2⟩


theorem reachable_run (env : Env) (inputs : List Input) :
    ∀ w w2 : World, Reachable w → run env w inputs = Except.ok w2 → Reachable w2 := by
  induction inputs with
  | nil =>
    intro w w2 hw h
    simp only [run, Except.ok.injEq] at h
    exact h ▸ hw
  | cons input rest ih =>
    intro w w2 hw h
    simp only [run] at h
    cases hs : step env w input with
    | error e => rw [hs] at h; cases h
    | ok w1 =>
      rw [hs] at h
      exact ih w1 w2 (Reachable.step env input hw hs) h

/-- C17. In every state reachable from the constructed object by any sequence of
messages on the four control topics, transport callbacks, `start` and `stop` calls,
whatever the outside answers, a test state `IDLE` means that no session is held. -/
theorem c17_idle_state_holds_no_session (w : World) (h : Reachable w) :
    w.node.test_state_ = EdgeTestState.IDLE → w.node.edge_node_ = none := by
  induction h with
  | create config => intro _; rfl
  | step env input _ hstep ih =>
    intro hidle
    rcases (step_shape env _ _ input hstep).1 with ⟨h1, h2⟩ | h1 | h1 | ⟨-, h2⟩
    · rcases h2 with h2 | h2
      · rw [h2]; exact ih (h1 ▸ hidle)
      · exact h2
    · rw [h1] at hidle; cases hidle
    · rw [h1] at hidle; cases hidle
    · exact h2

/-- C17 after a whole passing run: connect, subscribe, a session-establishment test and
`END_TEST`. -/
theorem c17_idle_state_holds_no_session_witness :
    (run Env.allSucceed (World.create {})
        [Input.connect_success, Input.subscribe_success,
         Input.message_arrived "SPARKPLUG_TCK/TEST_CONTROL"
           "NEW_TEST edge SessionEstablishmentTest G1 E1",
         Input.message_arrived "SPARKPLUG_TCK/TEST_CONTROL" "END_TEST"]).map
      (fun w => (w.node.test_state_, w.node.edge_node_)) =
      Except.ok (EdgeTestState.IDLE, none) ∧
    ∀ w : World,
      run Env.allSucceed (World.create {})
        [Input.connect_success, Input.subscribe_success,
         Input.message_arrived "SPARKPLUG_TCK/TEST_CONTROL"
           "NEW_TEST edge SessionEstablishmentTest G1 E1",
         Input.message_arrived "SPARKPLUG_TCK/TEST_CONTROL" "END_TEST"] = Except.ok w →
      w.node.test_state_ = EdgeTestState.IDLE → w.node.edge_node_ = none :=
  ⟨by decide, fun w h =>
    c17_idle_state_holds_no_session w
      (reachable_run Env.allSucceed _ _ w (Reachable.create {}) h)⟩


/-- When the constructor, `connect()` or `publish_birth()` of the session does not
succeed, `create_edge_node` returns an error, with or without a session in place. -/
theorem create_edge_node_error_of_failure (env : Env) (w : World) (g e : String)
    (hfail : env.construct (edgeNodeConfig w.node.config_ g e) ≠ none ∨
      env.connect { config := edgeNodeConfig w.node.config_ g e } ≠ CallResult.ok ∨
      env.publish_birth { config := edgeNodeConfig w.node.config_ g e } ≠ CallResult.ok) :
    ∃ msg, (create_edge_node env w g e).2 = Except.error msg := by
  rw [create_edge_node_snd]
  split
  · exact ⟨_, rfl⟩
  · cases hc : env.construct (edgeNodeConfig w.node.config_ g e) with
    | some what => exact ⟨_, rfl⟩
    | none =>
      cases h1 : env.connect { config := edgeNodeConfig w.node.config_ g e } with
      | throws what => exact ⟨_, rfl⟩
      | error msg => exact ⟨_, rfl⟩
      | ok =>
        cases h2 : env.publish_birth { config := edgeNodeConfig w.node.config_ g e } with
        | throws what => exact ⟨_, rfl⟩
        | error msg => exact ⟨_, rfl⟩
        | ok =>
          rcases hfail with h | h | h
          · exact absurd hc h
          · exact absurd h1 h
          · exact absurd h2 h

/-- C18. The state `FAILED` is never reached: in every state reachable from the
constructed object by any sequence of events, whatever the outside answers, the test
state is `IDLE`, `RUNNING` or `COMPLETED`.  In particular, when a session-establishment
test with its two identifiers meets a failure of the session constructor, of `connect()`
or of `publish_birth()`, the test state afterwards is `COMPLETED`, and the verdict
submitted when the transport is connected is `OVERALL: FAIL`. -/
theorem c18_failed_state_never_reached :
    (∀ w : World, Reachable w →
      w.node.test_state_ = EdgeTestState.IDLE ∨ w.node.test_state_ = EdgeTestState.RUNNING ∨
      w.node.test_state_ = EdgeTestState.COMPLETED) ∧
    (∀ (env : Env) (w : World) (message : String) (params : List String),
      split message ' ' = "NEW_TEST" :: "edge" :: "SessionEstablishmentTest" :: params →
      2 ≤ params.length →
      (env.construct (edgeNodeConfig w.node.config_ (params.getD 0 "") (params.getD 1 "")) ≠
          none ∨
        env.connect
          { config := edgeNodeConfig w.node.config_ (params.getD 0 "") (params.getD 1 "") } ≠
          CallResult.ok ∨
        env.publish_birth
          { config := edgeNodeConfig w.node.config_ (params.getD 0 "") (params.getD 1 "") } ≠
          CallResult.ok) →
      (handle_test_control env w message).node.test_state_ = EdgeTestState.COMPLETED ∧
      (w.node.connected_ = true →
        resultMessages (handle_test_control env w message).trace =
          resultMessages w.trace ++ ["OVERALL: FAIL"])) := by
  constructor
  · intro w h
    induction h with
    | create config => exact Or.inl rfl
    | step env input _ hstep ih =>
      rcases (step_shape env _ _ input hstep).1 with ⟨h1, -⟩ | h1 | h1 | ⟨h1, -⟩
      · rw [h1]; exact ih
      · exact Or.inr (Or.inl h1)
      · exact Or.inr (Or.inr h1)
      · exact Or.inl h1
  · intro env w message params hmsg hlen hfail
    have hlen2 : ¬ params.length < 2 := by omega
    obtain ⟨msg, he⟩ := create_edge_node_error_of_failure env
      (startRun env w "SessionEstablishmentTest" params) (params.getD 0 "") (params.getD 1 "")
      (by simpa using hfail)
    rw [handle_NEW_TEST_session_establishment env w message params hmsg,
      run_session_establishment_test_error env _ params msg hlen2 he]
    refine ⟨by simp, fun hc => ?_⟩
    rw [publish_result_resultMessages]
    have hc2 : (create_edge_node env (startRun env w "SessionEstablishmentTest" params)
        (params.getD 0 "") (params.getD 1 "")).1.node.connected_ = true := by
      rw [(create_edge_node_frame env _ _ _).1]
      simpa using hc
    simp only [log_node, hc2, if_true, log_resultMessages, create_edge_node_resultMessages,
      startRun_resultMessages]


/-- C18 on a run whose session fails to connect: the state reached is `COMPLETED`, and
the handler's verdict is `OVERALL: FAIL`. -/
theorem c18_failed_state_never_reached_witness :
    (run Env.connectFails (World.create {})
        [Input.connect_success, Input.subscribe_success,
         Input.message_arrived "SPARKPLUG_TCK/TEST_CONTROL"
           "NEW_TEST edge SessionEstablishmentTest G1 E1"]).map
      (fun w => w.node.test_state_) = Except.ok EdgeTestState.COMPLETED ∧
    (∀ w : World,
      run Env.connectFails (World.create {})
        [Input.connect_success, Input.subscribe_success,
         Input.message_arrived "SPARKPLUG_TCK/TEST_CONTROL"
           "NEW_TEST edge SessionEstablishmentTest G1 E1"] = Except.ok w →
      w.node.test_state_ = EdgeTestState.IDLE ∨ w.node.test_state_ = EdgeTestState.RUNNING ∨
      w.node.test_state_ = EdgeTestState.COMPLETED) ∧
    (handle_test_control Env.connectFails World.ready
        "NEW_TEST edge SessionEstablishmentTest G1 E1").node.test_state_ =
      EdgeTestState.COMPLETED ∧
    resultMessages
        (handle_test_control Env.connectFails World.ready
          "NEW_TEST edge SessionEstablishmentTest G1 E1").trace =
      resultMessages World.ready.trace ++ ["OVERALL: FAIL"] := by
  have h2 := c18_failed_state_never_reached.2 Env.connectFails World.ready
    "NEW_TEST edge SessionEstablishmentTest G1 E1" ["G1", "E1"] split_NEW_TEST_G1_E1
    (by decide) (Or.inr (Or.inl (by decide)))
  exact ⟨by decide,
    fun w h => c18_failed_state_never_reached.1 w
      (reachable_run Env.connectFails _ _ w (Reachable.create {}) h),
    h2.1, h2.2 rfl⟩

/-- C15, as stated, fails: an empty payload and a payload whose first token is neither
`NEW_TEST` nor `END_TEST` are dropped by `handle_test_control` without any output, so no
log line is emitted; all that `on_message_arrived` adds is its console echo of the
message, and nothing goes to the log topic. -/
theorem c15_counterexample_silent_drop :
    split "" ' ' = [] ∧
    handle_test_control Env.allSucceed World.ready "" = World.ready ∧
    split "STATUS now" ' ' = ["STATUS", "now"] ∧
    handle_test_control Env.allSucceed World.ready "STATUS now" = World.ready ∧
    on_message_arrived Env.allSucceed World.ready "SPARKPLUG_TCK/TEST_CONTROL" "" =
      Except.ok
        (World.ready.emit (Event.stdout "[TCK] Received: SPARKPLUG_TCK/TEST_CONTROL -> ")) := by
  decide

/-- C15, amended. A test-control payload that is neither a well-formed
`NEW_TEST edge <scenario> ...` nor an `END_TEST` never leads to a verdict.  A `NEW_TEST`
with fewer than three tokens emits exactly one log line, `[ERROR] Invalid NEW_TEST
command format`, and a `NEW_TEST` with a profile other than `edge` emits exactly one log
line, `[WARN] Ignoring non-edge test: <profile>` (on the console, and on the log topic
when connected).  An empty payload and a payload whose first token is neither `NEW_TEST`
nor `END_TEST` are dropped with no log line at all: state and trace are unchanged. -/
theorem c15_malformed_test_control (env : Env) (w : World) (message : String) :
    (split message ' ' = [] → handle_test_control env w message = w) ∧
    (∀ command, (split message ' ').head? = some command →
      command ≠ "NEW_TEST" → command ≠ "END_TEST" →
      handle_test_control env w message = w) ∧
    ((split message ' ').head? = some "NEW_TEST" → (split message ' ').length < 3 →
      (handle_test_control env w message).trace =
        w.trace ++ Event.stdout "[ERROR] Invalid NEW_TEST command format" ::
          (if w.node.connected_ then
            [Event.sendMessage "SPARKPLUG_TCK/LOG" "[ERROR] Invalid NEW_TEST command format" 0]
          else []) ∧
      (handle_test_control env w message).node = w.node) ∧
    (∀ profile, (split message ' ').head? = some "NEW_TEST" → 3 ≤ (split message ' ').length →
      (split message ' ')[1]? = some profile → profile ≠ "edge" →
      (handle_test_control env w message).trace =
        w.trace ++ Event.stdout ("[WARN] Ignoring non-edge test: " ++ profile) ::
          (if w.node.connected_ then
            [Event.sendMessage "SPARKPLUG_TCK/LOG"
              ("[WARN] Ignoring non-edge test: " ++ profile) 0]
          else []) ∧
      (handle_test_control env w message).node = w.node) := by
  refine ⟨?_, ?_, ?_, ?_⟩
  · intro h
    simp [handle_test_control, h]
  · intro command hhead h1 h2
    cases hparts : split message ' ' with
    | nil => simp [hparts] at hhead
    | cons c rest =>
      rw [hparts] at hhead
      simp only [List.head?_cons, Option.some.injEq] at hhead
      subst hhead
      simp [handle_test_control, hparts, h1, h2]
  · intro hhead hlen
    cases hparts : split message ' ' with
    | nil => simp [hparts] at hhead
    | cons c rest =>
      rw [hparts] at hhead hlen
      simp only [List.head?_cons, Option.some.injEq] at hhead
      subst hhead
      have : handle_test_control env w message =
          log env w "ERROR" "Invalid NEW_TEST command format" := by
        simp only [handle_test_control, hparts, List.isEmpty_cons, Bool.false_eq_true,
          if_false, List.getD_cons_zero, if_true, hlen]
      rw [this, log_trace, log_node]
      exact ⟨rfl, rfl⟩
  · intro profile hhead hlen hprof hne
    cases hparts : split message ' ' with
    | nil => simp [hparts] at hhead
    | cons c rest =>
      rw [hparts] at hhead hlen hprof
      simp only [List.head?_cons, Option.some.injEq] at hhead
      subst hhead
      cases rest with
      | nil => simp at hprof
      | cons p rest2 =>
        simp only [List.getElem?_cons_succ, List.getElem?_cons_zero, Option.some.injEq] at hprof
        subst hprof
        have hlen2 : ¬ ("NEW_TEST" :: p :: rest2).length < 3 := by omega
        have : handle_test_control env w message =
            log env w "WARN" ("Ignoring non-edge test: " ++ p) := by
          simp only [handle_test_control, hparts, List.isEmpty_cons, Bool.false_eq_true,
            if_false, List.getD_cons_zero, List.getD_cons_succ, if_true, hlen2, hne, ne_eq,
            not_false_eq_true]
        rw [this, log_trace, log_node]
        exact ⟨rfl, rfl⟩


theorem split_NEW_TEST_short : split "NEW_TEST edge" ' ' = ["NEW_TEST", "edge"] := by decide

/-- C15, amended, on the two-token message `NEW_TEST edge` at the ready state: one log
line on the console and on the log topic, and unchanged data members. -/
theorem c15_malformed_test_control_witness :
    (split "NEW_TEST edge" ' ').head? = some "NEW_TEST" ∧
    (split "NEW_TEST edge" ' ').length < 3 ∧
    (handle_test_control Env.allSucceed World.ready "NEW_TEST edge").trace =
      [Event.stdout "[ERROR] Invalid NEW_TEST command format",
       Event.sendMessage "SPARKPLUG_TCK/LOG" "[ERROR] Invalid NEW_TEST command format" 0] ∧
    (handle_test_control Env.allSucceed World.ready "NEW_TEST edge").node = World.ready.node := by
  have h := (c15_malformed_test_control Env.allSucceed World.ready "NEW_TEST edge").2.2.1
    (by rw [split_NEW_TEST_short]; rfl) (by rw [split_NEW_TEST_short]; decide)
  exact ⟨by rw [split_NEW_TEST_short]; rfl, by rw [split_NEW_TEST_short]; decide, h.1, h.2⟩

theorem split_NEW_TEST_FooTest :
    split "NEW_TEST edge FooTest a b" ' ' = ["NEW_TEST", "edge", "FooTest", "a", "b"] := by
  decide

/-- C16, as stated, fails: at the ready state the unknown scenario `FooTest` gets its
`OVERALL: NOT EXECUTED` through `publish_result`, which sets the test state, so the state
afterwards is `COMPLETED` and not `RUNNING`; and at the constructed object, which is not
connected, no verdict is submitted at all. -/
theorem c16_counterexample_state_completed :
    split "NEW_TEST edge FooTest a b" ' ' = ["NEW_TEST", "edge", "FooTest", "a", "b"] ∧
    "FooTest" ∉ declaredScenarios ∧
    (handle_test_control Env.allSucceed World.ready
        "NEW_TEST edge FooTest a b").node.test_state_ = EdgeTestState.COMPLETED ∧
    (handle_test_control Env.allSucceed World.ready
        "NEW_TEST edge FooTest a b").node.test_state_ ≠ EdgeTestState.RUNNING ∧
    resultMessages
        (handle_test_control Env.allSucceed World.initial
          "NEW_TEST edge FooTest a b").trace = [] := by
  decide

/-- C16, amended. For every message read as `NEW_TEST edge <scenario> [args]` with a
scenario outside the seven declared ones, handling it records the new scenario name and
arguments, makes no call on the session collaborator, changes no other data member, and
leaves the test state `COMPLETED`; when the transport is connected it submits exactly
one verdict, `OVERALL: NOT EXECUTED`, and when it is not connected it submits none. -/
theorem c16_unknown_scenario_not_executed (env : Env) (w : World)
    (message scenario : String) (params : List String)
    (hmsg : split message ' ' = "NEW_TEST" :: "edge" :: scenario :: params)
    (hun : scenario ∉ declaredScenarios) :
    (handle_test_control env w message).node =
      { w.node with
        test_state_ := EdgeTestState.COMPLETED
        current_test_name_ := scenario
        current_test_params_ := params } ∧
    (w.node.connected_ = true →
      resultMessages (handle_test_control env w message).trace =
        resultMessages w.trace ++ ["OVERALL: NOT EXECUTED"]) ∧
    (w.node.connected_ = false →
      resultMessages (handle_test_control env w message).trace = resultMessages w.trace) ∧
    sessionCalls (handle_test_control env w message).trace = sessionCalls w.trace := by
  rw [handle_NEW_TEST_unknown env w message scenario params hmsg hun]
  refine ⟨by simp, fun hc => ?_, fun hc => ?_, by simp⟩
  · simp [publish_result_resultMessages, hc]
  · simp [publish_result_resultMessages, hc]

/-- C16, amended, on `NEW_TEST edge FooTest a b` at the ready state. -/
theorem c16_unknown_scenario_not_executed_witness :
    split "NEW_TEST edge FooTest a b" ' ' = "NEW_TEST" :: "edge" :: "FooTest" :: ["a", "b"] ∧
    "FooTest" ∉ declaredScenarios ∧
    (handle_test_control Env.allSucceed World.ready "NEW_TEST edge FooTest a b").node =
      { World.ready.node with
        test_state_ := EdgeTestState.COMPLETED
        current_test_name_ := "FooTest"
        current_test_params_ := ["a", "b"] } ∧
    resultMessages
        (handle_test_control Env.allSucceed World.ready "NEW_TEST edge FooTest a b").trace =
      resultMessages World.ready.trace ++ ["OVERALL: NOT EXECUTED"] := by
  have h := c16_unknown_scenario_not_executed Env.allSucceed World.ready
    "NEW_TEST edge FooTest a b" "FooTest" ["a", "b"] split_NEW_TEST_FooTest (by decide)
  exact ⟨split_NEW_TEST_FooTest, by decide, h.1, h.2.1 rfl⟩


example : splitSpec " a\tb  \r c " = split " a\tb  \r c " ' ' := by decide

/-! ## `trim` strips both ends -/

theorem findIdx?_after_trimChars (A rest : List Char) (x : Char)
    (hA : ∀ a ∈ A, isTrimChar a = true) (hx : isTrimChar x = false) :
    (A ++ x :: rest).findIdx? (fun c => !isTrimChar c) = some A.length := by
  have hnone : A.findIdx? (fun c => !isTrimChar c) = none := by
    rw [List.findIdx?_eq_none_iff]
    intro a ha
    simp [hA a ha]
  rw [List.findIdx?_append, hnone]
  simp [hx]

/-- A text with a character that `trim` keeps splits into a stripped head, a middle that
begins and ends with a kept character, and a stripped tail. -/
theorem trim_decomposition (cs : List Char) (h : ∃ x ∈ cs, isTrimChar x = false) :
    ∃ (A M B : List Char) (x y : Char) (M1 M2 : List Char),
      cs = A ++ M ++ B ∧ M = x :: M1 ∧ M = M2 ++ [y] ∧
      (∀ a ∈ A, isTrimChar a = true) ∧ (∀ b ∈ B, isTrimChar b = true) ∧
      isTrimChar x = false ∧ isTrimChar y = false := by
  obtain ⟨z, hz, hzn⟩ := h
  -- the part after the leading stripped characters
  have hd : cs.dropWhile isTrimChar ≠ [] := by
    intro h0
    rw [List.dropWhile_eq_nil_iff] at h0
    rw [h0 z hz] at hzn
    cases hzn
  obtain ⟨x, d1, hdx⟩ := List.exists_cons_of_ne_nil hd
  have hx : isTrimChar x = false := by
    have := List.head?_dropWhile_not isTrimChar cs
    rw [hdx] at this
    simpa using this
  -- the same from the right, inside that part
  have hm : (x :: d1).rdropWhile isTrimChar ≠ [] := by
    intro h0
    rw [List.rdropWhile_eq_nil_iff] at h0
    have := h0 x (by simp)
    rw [hx] at this
    cases this
  have hlast := List.rdropWhile_last_not isTrimChar (x :: d1) hm
  obtain ⟨M2, y, hM⟩ : ∃ M2 y, (x :: d1).rdropWhile isTrimChar = M2 ++ [y] :=
    ⟨_, _, (List.dropLast_append_getLast hm).symm⟩
  have hy : isTrimChar y = false := by
    simp only [hM] at hlast
    simpa using hlast
  have hsplit : (x :: d1).rdropWhile isTrimChar ++ (x :: d1).rtakeWhile isTrimChar = x :: d1 := by
    unfold List.rdropWhile List.rtakeWhile
    rw [← List.reverse_append, List.takeWhile_append_dropWhile, List.reverse_reverse]
  have hpre : (x :: d1).rdropWhile isTrimChar <+: x :: d1 := List.rdropWhile_prefix isTrimChar (x :: d1)
  obtain ⟨M1, hM1⟩ : ∃ M1, (x :: d1).rdropWhile isTrimChar = x :: M1 := by
    cases hr : (x :: d1).rdropWhile isTrimChar with
    | nil => exact absurd hr hm
    | cons x2 M1 =>
      rw [hr] at hpre
      obtain ⟨t, ht⟩ := hpre
      simp only [List.cons_append, List.cons.injEq] at ht
      exact ⟨M1, by rw [ht.1]⟩
  refine ⟨cs.takeWhile isTrimChar, (x :: d1).rdropWhile isTrimChar,
    (x :: d1).rtakeWhile isTrimChar, x, y, M1, M2, ?_, hM1, hM, ?_, ?_, hx, hy⟩
  · rw [List.append_assoc, hsplit, ← hdx, List.takeWhile_append_dropWhile]
  · intro a ha
    exact (List.mem_takeWhile_imp ha)
  · intro b hb
    unfold List.rtakeWhile at hb
    rw [List.mem_reverse] at hb
    exact (List.mem_takeWhile_imp hb)


theorem stripSpec_decomposed (A M B M1 M2 : List Char) (x y : Char)
    (hM1 : M = x :: M1) (hM2 : M = M2 ++ [y])
    (hA : ∀ a ∈ A, isTrimChar a = true) (hB : ∀ b ∈ B, isTrimChar b = true)
    (hx : isTrimChar x = false) (hy : isTrimChar y = false) :
    stripSpec (A ++ M ++ B) = M := by
  unfold stripSpec
  rw [List.append_assoc, List.dropWhile_append_of_pos hA]
  have h1 : (M ++ B).dropWhile isTrimChar = M ++ B := by
    rw [hM1]
    simp [List.dropWhile_cons, hx]
  rw [h1]
  unfold List.rdropWhile
  rw [List.reverse_append,
    List.dropWhile_append_of_pos (fun b hb => hB b (List.mem_reverse.mp hb))]
  have h2 : M.reverse.dropWhile isTrimChar = M.reverse := by
    rw [hM2]
    simp [List.dropWhile_cons, hy]
  rw [h2, List.reverse_reverse]

theorem trim_decomposed (A M B M1 M2 : List Char) (x y : Char)
    (hM1 : M = x :: M1) (hM2 : M = M2 ++ [y])
    (hA : ∀ a ∈ A, isTrimChar a = true) (hB : ∀ b ∈ B, isTrimChar b = true)
    (hx : isTrimChar x = false) (hy : isTrimChar y = false) :
    trim (String.mk (A ++ M ++ B)) = String.mk M := by
  have hfirst : find_first_not_of (A ++ M ++ B) = some A.length := by
    unfold find_first_not_of
    rw [hM1, List.append_assoc, List.cons_append]
    exact findIdx?_after_trimChars A (M1 ++ B) x hA hx
  have hlast : find_last_not_of (A ++ M ++ B) = some ((A ++ M ++ B).length - 1 - B.length) := by
    unfold find_last_not_of
    have hrev : (A ++ M ++ B).reverse = B.reverse ++ y :: (M2.reverse ++ A.reverse) := by
      rw [hM2]
      simp
    rw [hrev, findIdx?_after_trimChars B.reverse _ y
      (fun b hb => hB b (List.mem_reverse.mp hb)) hy]
    simp
  unfold trim
  simp only [hfirst, hlast, Option.getD_some]
  congr 1
  have hlen : (A ++ M ++ B).length - 1 - B.length - A.length + 1 = M.length := by
    have : M.length = M2.length + 1 := by rw [hM2]; simp
    simp only [List.length_append]
    omega
  rw [hlen, List.append_assoc, List.drop_left, List.take_left]

/-- The function `trim` removes exactly the leading and the trailing space, tab, newline
and carriage-return characters. -/
theorem trim_eq_stripSpec (cs : List Char) : trim (String.mk cs) = String.mk (stripSpec cs) := by
  by_cases h : ∃ x ∈ cs, isTrimChar x = false
  · obtain ⟨A, M, B, x, y, M1, M2, hcs, hM1, hM2, hA, hB, hx, hy⟩ := trim_decomposition cs h
    rw [hcs, trim_decomposed A M B M1 M2 x y hM1 hM2 hA hB hx hy,
      stripSpec_decomposed A M B M1 M2 x y hM1 hM2 hA hB hx hy]
  · have hall : ∀ x ∈ cs, isTrimChar x = true := by
      intro x hx
      by_contra hne
      exact h ⟨x, hx, by simpa using hne⟩
    have h1 : find_first_not_of cs = none := by
      unfold find_first_not_of
      rw [List.findIdx?_eq_none_iff]
      intro x hx
      simp [hall x hx]
    have h2 : stripSpec cs = [] := by
      unfold stripSpec
      rw [(List.dropWhile_eq_nil_iff).mpr hall]
      rfl
    unfold trim
    simp only [h1, h2]


/-! ## `split` cuts at every space -/

theorem splitOn_space (ss : List Char) :
    ss.splitOn ' ' =
      ss.takeWhile (· != ' ') ::
        (match ss.dropWhile (· != ' ') with
         | [] => []
         | _ :: r => r.splitOn ' ') := by
  induction ss with
  | nil => rfl
  | cons c cs ih =>
    unfold List.splitOn at ih ⊢
    rw [List.splitOnP_cons]
    by_cases hc : c = ' '
    · subst hc
      simp
    · have h1 : (c == ' ') = false := by simpa using hc
      have h2 : (c != ' ') = true := by simpa using hc
      rw [h1, ih]
      simp [List.takeWhile_cons, List.dropWhile_cons, h2, List.modifyHead]

/-- The pieces kept by `splitSpec`: all but an empty last one. -/
theorem keptPieces_cons (x : List Char) (L : List (List Char)) (hL : L ≠ []) :
    (if (x :: L).getLast? = some [] then (x :: L).dropLast else x :: L) =
      x :: (if L.getLast? = some [] then L.dropLast else L) := by
  obtain ⟨y, L2, rfl⟩ := List.exists_cons_of_ne_nil hL
  simp only [List.getLast?_cons_cons, List.dropLast_cons₂]
  split <;> rfl

theorem splitLoop_eq_spec (n : Nat) :
    ∀ ss : List Char, ss.length ≤ n →
      splitLoop ' ' (ss.length + 1) ss [] =
        (if (ss.splitOn ' ').getLast? = some [] then (ss.splitOn ' ').dropLast
          else ss.splitOn ' ').map (fun piece => String.mk (stripSpec piece)) := by
  induction n with
  | zero =>
    intro ss h
    have : ss = [] := List.length_eq_zero.mp (by omega)
    subst this
    rfl
  | succ n ih =>
    intro ss h
    cases hss : ss with
    | nil => rfl
    | cons c cs =>
      rw [← hss]
      have hne : ss ≠ [] := by rw [hss]; simp
      rw [split_loop_eq, getline_of_ne_nil ss ' ' hne]
      simp only []
      rw [splitLoop_acc, splitOn_space ss]
      have hlen := (List.dropWhile_sublist (fun x => x != ' ') (l := ss)).length_le
      cases hd : ss.dropWhile (· != ' ') with
      | nil =>
        have htw : ss.takeWhile (· != ' ') = ss := by
          have := List.takeWhile_append_dropWhile (fun x => x != ' ') ss
          rw [hd, List.append_nil] at this
          exact this
        rw [htw]
        have hlast : ¬ ([ss].getLast? = some []) := by
          simp only [List.getLast?_singleton, Option.some.injEq]
          exact hne
        simp only [List.drop_nil, hlast, if_false, List.map_cons, List.map_nil,
          trim_eq_stripSpec]
        rfl
      | cons sp r =>
        have hr : r.length ≤ n := by
          rw [hd] at hlen
          simp only [List.length_cons] at hlen
          omega
        simp only [List.drop_succ_cons, List.drop_zero]
        have hnil : List.splitOn ' ' r ≠ [] := List.splitOnP_ne_nil _ r
        rw [keptPieces_cons _ _ hnil, List.map_cons, ih r hr, trim_eq_stripSpec]
        rfl

/-- The function `split` on the space character is the parser of the specification. -/
theorem split_eq_splitSpec (s : String) : split s ' ' = splitSpec s := by
  unfold split splitSpec
  rw [String.length]
  exact splitLoop_eq_spec s.data.length s.data (Nat.le_refl _)


/-! ## What every token looks like -/

theorem stripSpec_subset (cs : List Char) : ∀ c ∈ stripSpec cs, c ∈ cs := by
  intro c hc
  unfold stripSpec at hc
  have h1 := (List.rdropWhile_prefix isTrimChar (cs.dropWhile isTrimChar)).subset hc
  exact (List.dropWhile_suffix isTrimChar).subset h1

/-- A stripped piece is empty, or begins and ends with a character that `trim` keeps. -/
theorem stripSpec_shape (cs : List Char) :
    stripSpec cs = [] ∨
    ∃ (x y : Char) (M1 M2 : List Char),
      stripSpec cs = x :: M1 ∧ stripSpec cs = M2 ++ [y] ∧
      isTrimChar x = false ∧ isTrimChar y = false := by
  by_cases h : ∃ x ∈ cs, isTrimChar x = false
  · obtain ⟨A, M, B, x, y, M1, M2, hcs, hM1, hM2, hA, hB, hx, hy⟩ := trim_decomposition cs h
    right
    have hs := stripSpec_decomposed A M B M1 M2 x y hM1 hM2 hA hB hx hy
    rw [← hcs] at hs
    exact ⟨x, y, M1, M2, by rw [hs, hM1], by rw [hs, hM2], hx, hy⟩
  · left
    have hall : ∀ x ∈ cs, isTrimChar x = true := by
      intro x hx
      by_contra hne
      exact h ⟨x, hx, by simpa using hne⟩
    unfold stripSpec
    rw [(List.dropWhile_eq_nil_iff).mpr hall]
    rfl

theorem splitOn_space_no_space (ss : List Char) :
    ∀ piece ∈ ss.splitOn ' ', ' ' ∉ piece := by
  induction ss with
  | nil =>
    intro piece hp
    have : piece = [] := by simpa [List.splitOn, List.splitOnP_nil] using hp
    rw [this]
    simp
  | cons c cs ih =>
    intro piece hp
    unfold List.splitOn at ih hp
    rw [List.splitOnP_cons] at hp
    by_cases hc : c = ' '
    · subst hc
      simp only [beq_self_eq_true, if_true, List.mem_cons] at hp
      rcases hp with hp | hp
      · rw [hp]; simp
      · exact ih piece hp
    · have h1 : (c == ' ') = false := by simpa using hc
      rw [h1] at hp
      simp only [Bool.false_eq_true, if_false] at hp
      cases hsp : List.splitOnP (fun x => x == ' ') cs with
      | nil => rw [hsp] at hp; simp [List.modifyHead] at hp
      | cons p ps =>
        rw [hsp] at hp ih
        simp only [List.modifyHead, List.mem_cons] at hp
        rcases hp with hp | hp
        · rw [hp]
          have := ih p (by simp)
          simp only [List.mem_cons, not_or]
          exact ⟨fun h => hc h.symm, this⟩
        · exact ih piece (by simp [hp])

/-- Every token returned by `split` on the space character is a stripped piece of the
text between two cuts: it holds no space, and it is empty or begins and ends with a
character other than space, tab, newline and carriage return. -/
theorem split_token_shape (s t : String) (ht : t ∈ split s ' ') :
    ' ' ∉ t.data ∧
    (t.data = [] ∨
      ∃ (x y : Char) (M1 M2 : List Char),
        t.data = x :: M1 ∧ t.data = M2 ++ [y] ∧
        isTrimChar x = false ∧ isTrimChar y = false) := by
  rw [split_eq_splitSpec] at ht
  unfold splitSpec at ht
  simp only [List.mem_map] at ht
  obtain ⟨piece, hpiece, rfl⟩ := ht
  have hmem : piece ∈ s.data.splitOn ' ' := by
    split at hpiece
    · exact (List.dropLast_subset _) hpiece
    · exact hpiece
  refine ⟨?_, stripSpec_shape piece⟩
  intro hsp
  exact splitOn_space_no_space s.data piece hmem (stripSpec_subset piece ' ' hsp)


/-! ## Claims C11 and C19 -/

/-- A token that `split` returned, when it is not empty, is read back by `split` as
itself alone. -/
theorem split_token_again (s t : String) (ht : t ∈ split s ' ') (hne : t ≠ "") :
    split t ' ' = [t] := by
  obtain ⟨hsp, hshape⟩ := split_token_shape s t ht
  obtain ⟨cs⟩ := t
  simp only at hsp hshape
  rcases hshape with h0 | ⟨x, y, M1, M2, hM1, hM2, hx, hy⟩
  · exact absurd (by rw [h0]) hne
  · have hnil : cs ≠ [] := by rw [hM1]; simp
    have htrim : trim (String.mk cs) = String.mk cs := by
      rw [trim_eq_stripSpec]
      have := stripSpec_decomposed [] cs [] M1 M2 x y hM1 hM2 (by simp) (by simp) hx hy
      simp only [List.nil_append, List.append_nil] at this
      rw [this]
    unfold split
    rw [String.length, split_loop_eq,
      getline_last_token cs hnil (fun c hc h => hsp (h ▸ hc))]
    simp [splitLoop, getline, htrim]

/-- C11. For every text, `split` on the space character returns the tokens of the
reference parser `splitSpec`: the text cut at every single space, without the last piece
when that piece is empty (a text ending with a space, or the empty text), each piece
stripped of its leading and trailing space, tab, newline and carriage-return characters.
So the empty text gives no token, two spaces in a row give an empty token, a final space
gives no token; no token holds a space, and no token begins or ends with one of the four
stripped characters. -/
theorem c11_split_reference_semantics (s : String) :
    split s ' ' = splitSpec s ∧
    split "" ' ' = [] ∧
    split "a  b" ' ' = ["a", "", "b"] ∧
    split "a " ' ' = ["a"] ∧
    (∀ t ∈ split s ' ', ' ' ∉ t.data) ∧
    (∀ t ∈ split s ' ', ∀ c, t.data.head? = some c → isTrimChar c = false) ∧
    (∀ t ∈ split s ' ', ∀ c, t.data.getLast? = some c → isTrimChar c = false) := by
  refine ⟨split_eq_splitSpec s, by decide, by decide, by decide,
    fun t ht => (split_token_shape s t ht).1, fun t ht c hc => ?_, fun t ht c hc => ?_⟩
  · rcases (split_token_shape s t ht).2 with h0 | ⟨x, y, M1, M2, hM1, hM2, hx, hy⟩
    · rw [h0] at hc; cases hc
    · rw [hM1] at hc
      simp only [List.head?_cons, Option.some.injEq] at hc
      exact hc ▸ hx
  · rcases (split_token_shape s t ht).2 with h0 | ⟨x, y, M1, M2, hM1, hM2, hx, hy⟩
    · rw [h0] at hc; cases hc
    · rw [hM2, List.getLast?_concat] at hc
      simp only [Option.some.injEq] at hc
      exact hc ▸ hy


theorem create_edge_node_ok_of_success (env : Env) (w : World) (g e : String)
    (hnone : w.node.edge_node_ = none)
    (hcons : env.construct (edgeNodeConfig w.node.config_ g e) = none)
    (hconnect : env.connect { config := edgeNodeConfig w.node.config_ g e } = CallResult.ok)
    (hbirth : env.publish_birth { config := edgeNodeConfig w.node.config_ g e } =
      CallResult.ok) :
    (create_edge_node env w g e).2 = Except.ok () := by
  rw [create_edge_node_snd]
  simp [hnone, hcons, hconnect, hbirth]

/-- C19. For every message read as
`NEW_TEST edge SessionEstablishmentTest <group> <edge> [d1 d2 ...]` whose session
creation succeeds (no session held before; constructor, `connect()` and
`publish_birth()` succeed), the stored device-identifier list is empty when there is no
third argument or when it is the empty token, and is the one-element list of the third
argument otherwise; the arguments after the third are not stored, so the list never has
more than one element. -/
theorem c19_at_most_one_device_identifier (env : Env) (w : World) (message : String)
    (params : List String)
    (hmsg : split message ' ' =
      "NEW_TEST" :: "edge" :: "SessionEstablishmentTest" :: params)
    (hlen : 2 ≤ params.length)
    (hnone : w.node.edge_node_ = none)
    (hcons : env.construct
      (edgeNodeConfig w.node.config_ (params.getD 0 "") (params.getD 1 "")) = none)
    (hconnect : env.connect
      { config := edgeNodeConfig w.node.config_ (params.getD 0 "") (params.getD 1 "") } =
      CallResult.ok)
    (hbirth : env.publish_birth
      { config := edgeNodeConfig w.node.config_ (params.getD 0 "") (params.getD 1 "") } =
      CallResult.ok) :
    (handle_test_control env w message).node.device_ids_ =
      (match params[2]? with
       | none => []
       | some d1 => if d1 = "" then [] else [d1]) ∧
    (handle_test_control env w message).node.device_ids_.length ≤ 1 := by
  have hlen2 : ¬ params.length < 2 := by omega
  have hok := create_edge_node_ok_of_success env
    (startRun env w "SessionEstablishmentTest" params) (params.getD 0 "") (params.getD 1 "")
    (by simpa using hnone) (by simpa using hcons) (by simpa using hconnect)
    (by simpa using hbirth)
  have hids : (handle_test_control env w message).node.device_ids_ =
      if params.length > 2 ∧ params.getD 2 "" ≠ "" then split (params.getD 2 "") ' '
      else [] := by
    rw [handle_NEW_TEST_session_establishment env w message params hmsg,
      run_session_establishment_test_ok env _ params hlen2 hok, log_node]
  have hval : (handle_test_control env w message).node.device_ids_ =
      (match params[2]? with
       | none => []
       | some d1 => if d1 = "" then [] else [d1]) := by
    rw [hids]
    cases h2 : params[2]? with
    | none =>
      have : ¬ params.length > 2 := by
        rw [List.getElem?_eq_none_iff] at h2
        omega
      simp [this]
    | some d1 =>
      have hl : params.length > 2 := by
        by_contra hc
        rw [List.getElem?_eq_none (by omega)] at h2
        cases h2
      have hget : params.getD 2 "" = d1 := by
        simp [List.getD_eq_getElem?_getD, h2]
      rw [hget]
      by_cases hd : d1 = ""
      · simp [hd]
      · have hmem : d1 ∈ split message ' ' := by
          rw [hmsg]
          have : d1 ∈ params := List.getElem?_mem h2
          simp [this]
        simp only [hl, hd, ne_eq, not_false_eq_true, and_self, if_true, if_false]
        exact split_token_again message d1 hmem hd
  refine ⟨hval, ?_⟩
  rw [hval]
  cases params[2]? with
  | none => simp
  | some d1 => simp only []; split <;> simp

theorem split_NEW_TEST_devices :
    split "NEW_TEST edge SessionEstablishmentTest G1 E1 D1 D2" ' ' =
      ["NEW_TEST", "edge", "SessionEstablishmentTest", "G1", "E1", "D1", "D2"] := by
  decide

/-- C19 on a message that names two devices: only `D1` is stored. -/
theorem c19_at_most_one_device_identifier_witness :
    split "NEW_TEST edge SessionEstablishmentTest G1 E1 D1 D2" ' ' =
      "NEW_TEST" :: "edge" :: "SessionEstablishmentTest" :: ["G1", "E1", "D1", "D2"] ∧
    World.ready.node.edge_node_ = none ∧
    (handle_test_control Env.allSucceed World.ready
        "NEW_TEST edge SessionEstablishmentTest G1 E1 D1 D2").node.device_ids_ = ["D1"] ∧
    (handle_test_control Env.allSucceed World.ready
        "NEW_TEST edge SessionEstablishmentTest G1 E1 D1 D2").node.device_ids_.length ≤ 1 := by
  have h := c19_at_most_one_device_identifier Env.allSucceed World.ready
    "NEW_TEST edge SessionEstablishmentTest G1 E1 D1 D2" ["G1", "E1", "D1", "D2"]
    split_NEW_TEST_devices (by decide) rfl rfl rfl rfl
  exact ⟨split_NEW_TEST_devices, rfl, h.1, h.2⟩


/-! ## Decimal numerals -/

theorem toString_nat_data (n : Nat) : (toString n).data = Nat.toDigits 10 n := rfl

theorem digitChar_facts (k : Nat) (h : k < 10) :
    (Nat.digitChar k).isDigit = true ∧ (Nat.digitChar k).toNat - 48 = k ∧
    isTrimChar (Nat.digitChar k) = false ∧ isspace (Nat.digitChar k) = false ∧
    Nat.digitChar k ≠ '-' ∧ Nat.digitChar k ≠ '+' := by
  interval_cases k <;> decide

theorem toDigitsCore_append (fuel : Nat) :
    ∀ (n : Nat) (ds : List Char),
      Nat.toDigitsCore 10 fuel n ds = Nat.toDigitsCore 10 fuel n [] ++ ds := by
  induction fuel with
  | zero => intro n ds; simp [Nat.toDigitsCore]
  | succ f ih =>
    intro n ds
    simp only [Nat.toDigitsCore]
    split
    · simp
    · rw [ih (n / 10) (Nat.digitChar (n % 10) :: ds), ih (n / 10) [Nat.digitChar (n % 10)]]
      simp

theorem parseDigits_append (L1 : List Char) (h : ∀ c ∈ L1, c.isDigit = true) :
    ∀ (acc : Nat) (L2 : List Char),
      parseDigits acc (L1 ++ L2) = parseDigits (parseDigits acc L1) L2 := by
  induction L1 with
  | nil => intro acc L2; rfl
  | cons c cs ih =>
    intro acc L2
    have hc : c.isDigit = true := h c (by simp)
    simp only [List.cons_append, parseDigits, hc, if_true]
    exact ih (fun x hx => h x (by simp [hx])) _ _

/-- The decimal numeral of `n`: a non-empty run of digits whose value is `n`. -/
theorem toDigitsCore_spec (fuel : Nat) :
    ∀ n : Nat, n < fuel →
      Nat.toDigitsCore 10 fuel n [] ≠ [] ∧
      (∀ c ∈ Nat.toDigitsCore 10 fuel n [], ∃ k, k < 10 ∧ c = Nat.digitChar k) ∧
      parseDigits 0 (Nat.toDigitsCore 10 fuel n []) = n := by
  induction fuel with
  | zero => intro n h; omega
  | succ f ih =>
    intro n h
    simp only [Nat.toDigitsCore]
    have hmod : n % 10 < 10 := Nat.mod_lt _ (by decide)
    obtain ⟨hd1, hd2, -⟩ := digitChar_facts (n % 10) hmod
    by_cases h0 : n / 10 = 0
    · simp only [h0, if_true]
      refine ⟨by simp, ?_, ?_⟩
      · intro c hc
        simp only [List.mem_singleton] at hc
        exact ⟨n % 10, hmod, hc⟩
      · simp only [parseDigits, hd1, if_true, hd2]
        omega
    · simp only [h0, if_false]
      rw [toDigitsCore_append]
      have hlt : n / 10 < f := by omega
      obtain ⟨i1, i2, i3⟩ := ih (n / 10) hlt
      refine ⟨by simp, ?_, ?_⟩
      · intro c hc
        simp only [List.mem_append, List.mem_singleton] at hc
        rcases hc with hc | hc
        · exact i2 c hc
        · exact ⟨n % 10, hmod, hc⟩
      · rw [parseDigits_append _ (fun c hc => by
          obtain ⟨k, hk, rfl⟩ := i2 c hc
          exact (digitChar_facts k hk).1), i3]
        simp only [parseDigits, hd1, if_true, hd2]
        omega


/-- The decimal numeral of a natural number below `2^31` is converted by `std::stoi`
to that number. -/
theorem stoi_toString (n : Nat) (h : n < 2 ^ 31) : stoi (toString n) = Except.ok (n : Int) := by
  obtain ⟨hne, hdig, hval⟩ := toDigitsCore_spec (n + 1) n (Nat.lt_succ_self n)
  obtain ⟨c, cs, hcs⟩ := List.exists_cons_of_ne_nil hne
  obtain ⟨k, hk, hck⟩ := hdig c (by rw [hcs]; simp)
  obtain ⟨f1, -, -, f4, f5, f6⟩ := digitChar_facts k hk
  rw [← hck] at f1 f4 f5 f6
  have hdata : (toString n).data = c :: cs := by
    rw [toString_nat_data]
    exact hcs
  have hv : parseDigits 0 (c :: cs) = n := by
    rw [← hcs]
    exact hval
  unfold stoi
  simp only [hdata, List.dropWhile_cons, f4, Bool.false_eq_true, if_false]
  have hsigned : (match c :: cs with
      | '-' :: r => (true, r)
      | '+' :: r => (false, r)
      | _ => (false, c :: cs)) = (false, c :: cs) := by
    split
    · next r heq =>
      simp only [List.cons.injEq] at heq
      exact absurd heq.1 f5
    · next r heq =>
      simp only [List.cons.injEq] at heq
      exact absurd heq.1 f6
    · rfl
  rw [hsigned]
  simp only [f1, if_true, Bool.false_eq_true, if_false, hv]
  have hrange : ¬ ((n : Int) < INT_MIN ∨ (n : Int) > INT_MAX) := by
    unfold INT_MIN INT_MAX
    have : (n : Int) < 2147483648 := by
      have h2 : n < 2147483648 := by simpa using h
      exact_mod_cast h2
    omega
  simp only [hrange, if_false]

theorem plainToken_toString (n : Nat) : plainToken (toString n) ∧ toString n ≠ "" := by
  obtain ⟨hne, hdig, -⟩ := toDigitsCore_spec (n + 1) n (Nat.lt_succ_self n)
  constructor
  · intro c hc
    rw [toString_nat_data] at hc
    obtain ⟨k, hk, rfl⟩ := hdig c hc
    exact (digitChar_facts k hk).2.2.1
  · intro h0
    have : (toString n).data = [] := by rw [h0]
    rw [toString_nat_data] at this
    exact hne this

theorem split_UTCwindow (n : Nat) :
    split ("UTCwindow " ++ toString n) ' ' = ["UTCwindow", toString n] := by
  have hj : joinTokens ["UTCwindow", toString n] = "UTCwindow " ++ toString n := by
    simp only [joinTokens]
    apply String.ext
    simp [String.data_append]
  rw [← hj]
  apply split_joinTokens _ (by simp)
  · intro t ht
    simp only [List.mem_cons, List.mem_singleton, List.not_mem_nil, or_false] at ht
    rcases ht with h | h
    · subst h; unfold plainToken; decide
    · subst h; exact (plainToken_toString n).1
  · simpa using (plainToken_toString n).2


/-! ## Claims C12 and C13 -/

/-- C12. For every natural number `n` below `2^31`, written as its decimal numeral, the
configuration message `UTCwindow <n>` is handled to the end and sets `utc_window_ms` to
`n`; no other field of the configuration and no other data member changes.  A
configuration message with fewer than two tokens, or whose first token is not
`UTCwindow`, leaves the configuration, every other data member and the trace as they
were. -/
theorem c12_utc_window_configuration (env : Env) (w : World) :
    (∀ n : Nat, n < 2 ^ 31 →
      ∃ w2 : World,
        handle_config env w ("UTCwindow " ++ toString n) = Except.ok w2 ∧
        w2.node =
          { w.node with config_ := { w.node.config_ with utc_window_ms := (n : Int) } }) ∧
    (∀ message : String,
      (split message ' ').length < 2 ∨ (split message ' ').head? ≠ some "UTCwindow" →
      handle_config env w message = Except.ok w) := by
  constructor
  · intro n hn
    refine ⟨log env
      { w with node := { w.node with config_ :=
          { w.node.config_ with utc_window_ms := (n : Int) } } }
      "INFO" ("UTC window set to " ++ toString (n : Int) ++ " ms"), ?_, by rw [log_node]⟩
    unfold handle_config
    simp only [split_UTCwindow, List.length_cons, List.length_nil, List.getD_cons_zero,
      List.getD_cons_succ, stoi_toString n hn]
    simp
  · intro message h
    unfold handle_config
    simp only []
    have hc : ¬ ((split message ' ').length ≥ 2 ∧ (split message ' ').getD 0 "" = "UTCwindow") := by
      rintro ⟨h1, h2⟩
      rcases h with h | h
      · omega
      · apply h
        cases hparts : split message ' ' with
        | nil => rw [hparts] at h1; simp at h1
        | cons c rest =>
          rw [hparts] at h2
          simp only [List.getD_cons_zero] at h2
          rw [h2]
          rfl
    rw [if_neg hc]

/-- C12 on `UTCwindow 2000`, which gives 2000, and on a message that is not a
`UTCwindow` one. -/
theorem c12_utc_window_configuration_witness :
    2000 < 2 ^ 31 ∧ "UTCwindow " ++ toString 2000 = "UTCwindow 2000" ∧
    (∃ w2 : World,
      handle_config Env.allSucceed World.ready "UTCwindow 2000" = Except.ok w2 ∧
      w2.node.config_.utc_window_ms = 2000 ∧
      w2.node =
        { World.ready.node with
          config_ := { World.ready.node.config_ with utc_window_ms := 2000 } }) ∧
    (split "TIMEOUT 2000" ' ').head? ≠ some "UTCwindow" ∧
    handle_config Env.allSucceed World.ready "TIMEOUT 2000" = Except.ok World.ready := by
  obtain ⟨h1, h2⟩ := c12_utc_window_configuration Env.allSucceed World.ready
  obtain ⟨w2, hw2, hn⟩ := h1 2000 (by decide)
  exact ⟨by decide, by decide, ⟨w2, hw2, by rw [hn]; rfl, hn⟩, by decide,
    h2 "TIMEOUT 2000" (Or.inr (by decide))⟩

/-- C13 at its failing inputs: for the configuration payloads `UTCwindow abc`,
`UTCwindow` followed by two spaces (an empty value token) and `UTCwindow 99999999999`,
`std::stoi` throws and the exception leaves `handle_config` and `on_message_arrived`
uncaught, before `utc_window_ms` is assigned. -/
theorem c13_config_exception_escapes :
    handle_config Env.allSucceed World.ready "UTCwindow abc" =
      Except.error StdException.invalid_argument ∧
    on_message_arrived Env.allSucceed World.ready "SPARKPLUG_TCK/CONFIG" "UTCwindow abc" =
      Except.error StdException.invalid_argument ∧
    split "UTCwindow  " ' ' = ["UTCwindow", ""] ∧
    handle_config Env.allSucceed World.ready "UTCwindow  " =
      Except.error StdException.invalid_argument ∧
    handle_config Env.allSucceed World.ready "UTCwindow 99999999999" =
      Except.error StdException.out_of_range := by
  decide

end Sparkplug.Tck
